import Mathlib

/-!
# Verification of the Moosync `SongDBInstance` data store

Shallow embedding of `src/unnamed/part_000` (the `SongDBInstance` class of
Moosync): the SQLite-backed tables become Lean lists of rows, every
`db.query` / `db.insert` / `db.delete` / `db.run` call becomes the
corresponding list operation, and the class methods (`store`, `removeSong`,
`storeArtists`, `storeAlbum`, `storeGenre`, `updateSongCountAlbum`,
`removeFromPlaylist`, `populateWhereQuery`, `addOrderClause`,
`getEntityByOptions`, `searchAll`) become Lean functions on that state.
-/

namespace Moosync

/-- SQLite `COLLATE NOCASE` folds the ASCII letters `A`–`Z` to lower case and
leaves every other character unchanged. -/
def caseFoldChar (c : Char) : Char :=
  if 'A' ≤ c ∧ c ≤ 'Z' then Char.ofNat (c.toNat + 32) else c

/-- ASCII case-folding of a whole string (SQLite `NOCASE`). -/
def caseFold (s : String) : String :=
  ⟨s.data.map caseFoldChar⟩

/-- Equality of strings under SQLite's `COLLATE NOCASE`. -/
def nocaseEq (a b : String) : Bool :=
  caseFold a == caseFold b

/-- Leading/trailing-whitespace removal on a character list. -/
def trimChars (l : List Char) : List Char :=
  ((l.dropWhile Char.isWhitespace).reverse.dropWhile Char.isWhitespace).reverse

/-- JavaScript `String.prototype.trim`: strip whitespace at both ends. -/
def trimS (s : String) : String :=
  ⟨trimChars s.data⟩

/-- JavaScript truthiness of a possibly-absent string: `undefined`, `null`
and the empty string are falsy, every other string is truthy. -/
def strTruthy : Option String → Bool
  | some s => s ≠ ""
  | none => false

/-- `[s]` when the optional string is truthy, else `[]`; used to model
`if (x) paths.push(x)`. -/
def pushTruthy : Option String → List String
  | some s => if s ≠ "" then [s] else []
  | none => []

/-- SQLite `LIKE`: `%` matches any (possibly empty) substring, `_` matches
exactly one character, and plain characters compare ASCII-case-insensitively.
The first argument is the pattern, the second the text. -/
def likeMatch : List Char → List Char → Bool
  | [], t => t.isEmpty
  | c :: p, t =>
    if c = '%' then
      likeMatch p t ||
        (match t with
          | [] => false
          | _ :: ts => likeMatch (c :: p) ts)
    else
      match t with
      | [] => false
      | d :: ts => if c = '_' then likeMatch p ts
                   else (caseFoldChar c == caseFoldChar d) && likeMatch p ts
  termination_by p t => (p.length, t.length)

/-- SQLite `LIKE` on strings: `likeS pattern text`. -/
def likeS (pattern text : String) : Bool :=
  likeMatch pattern.data text.data

/-! ## Rows and database state

One structure per table of the schema, with the columns the code touches.
Nullable columns are `Option String`; the song-count caches are
`Option Nat` (`NULL` until a recomputation sweep fills them). -/

/-- A row of the `allsongs` table (the result of `marshalSong`). -/
structure SongRow where
  _id : String
  title : String
  path : Option String
  song_coverPath_low : Option String
  song_coverPath_high : Option String
  deriving Repr, DecidableEq

/-- A row of the `artists` table. -/
structure ArtistRow where
  artist_id : String
  artist_name : String
  artist_coverPath : Option String
  artist_song_count : Option Nat
  deriving Repr, DecidableEq

/-- A row of the `albums` table. -/
structure AlbumRow where
  album_id : String
  album_name : String
  album_coverPath_low : Option String
  album_coverPath_high : Option String
  album_artist : Option String
  album_song_count : Option Nat
  deriving Repr, DecidableEq

/-- A row of the `genre` table. -/
structure GenreRow where
  genre_id : String
  genre_name : String
  genre_song_count : Option Nat
  deriving Repr, DecidableEq

/-- A row of the `playlists` table. -/
structure PlaylistRow where
  playlist_id : String
  playlist_name : String
  playlist_desc : Option String
  playlist_coverPath : Option String
  playlist_song_count : Option Nat
  deriving Repr, DecidableEq

/-- A row of `artists_bridge` (columns `song`, `artist`). -/
structure ArtistsBridgeRow where
  song : String
  artist : String
  deriving Repr, DecidableEq

/-- A row of `album_bridge` (columns `song`, `album`). -/
structure AlbumBridgeRow where
  song : String
  album : String
  deriving Repr, DecidableEq

/-- A row of `genre_bridge` (columns `song`, `genre`). -/
structure GenreBridgeRow where
  song : String
  genre : String
  deriving Repr, DecidableEq

/-- A row of `playlist_bridge` (columns `playlist`, `song`). -/
structure PlaylistBridgeRow where
  playlist : String
  song : String
  deriving Repr, DecidableEq

/-- The whole database state: the five entity tables, the four bridge
tables (each a list of rows in insertion order), and a counter from which
the next `v4()` identifier is drawn. -/
structure DB where
  allsongs : List SongRow
  artists : List ArtistRow
  albums : List AlbumRow
  genre : List GenreRow
  playlists : List PlaylistRow
  artists_bridge : List ArtistsBridgeRow
  album_bridge : List AlbumBridgeRow
  genre_bridge : List GenreBridgeRow
  playlist_bridge : List PlaylistBridgeRow
  fresh : Nat
  deriving Repr, DecidableEq

/-- The empty database. -/
def DB.empty : DB :=
  ⟨[], [], [], [], [], [], [], [], [], 0⟩

/-- `v4()`: the `n`-th generated UUID, modelled as a distinct non-empty
string drawn from the freshness counter. -/
def freshId (n : Nat) : String :=
  "uuid-" ++ toString n

/-! ## Input objects -/

/-- The `Album` object attached to a `Song` passed to `store`. -/
structure AlbumDoc where
  album_name : Option String
  album_coverPath_low : Option String
  album_coverPath_high : Option String
  album_artist : Option String
  deriving Repr, DecidableEq

/-- The `Song` document passed to `store` (the fields the data store
reads). -/
structure SongDoc where
  _id : String
  title : String
  path : Option String
  song_coverPath_low : Option String
  song_coverPath_high : Option String
  album : Option AlbumDoc
  artists : Option (List String)
  genre : Option (List String)
  deriving Repr, DecidableEq

/-- Modelled from the spec: `marshalSong` lives in `./utils` (`DBUtils`),
which is not part of the provided sources.  Per §3 of the specification it
flattens a `Song` document into its `allsongs` row, copying the identifier,
title, path and the two cover-image paths unchanged. -/
def marshalSong (s : SongDoc) : SongRow :=
  ⟨s._id, s.title, s.path, s.song_coverPath_low, s.song_coverPath_high⟩

/-! ## Entity resolvers: `storeArtists`, `storeAlbum`, `storeGenre`

Each mirrors the corresponding private method.  The SQL
`SELECT ... WHERE name = ? COLLATE NOCASE` becomes `List.find?` with
`nocaseEq` (`queryFirstCell` returns the first matching row's cell), the
JavaScript truthiness test `if (id)` becomes `strTruthy`, and `v4()` draws
from the freshness counter. -/

/-- One step of `storeArtists`: resolve a single artist name.
`SELECT artist_id FROM artists WHERE artist_name = ? COLLATE NOCASE` with
the trimmed name; on a falsy result insert `{artist_id: v4(), artist_name:
a.trim()}`. -/
def storeArtistStep (db : DB) (a : String) : String × DB :=
  let found := (db.artists.find? (fun r => nocaseEq r.artist_name (trimS a))).map
    (·.artist_id)
  if strTruthy found then (found.getD "", db)
  else
    let id := freshId db.fresh
    (id, { db with
            artists := db.artists ++ [⟨id, trimS a, none, none⟩],
            fresh := db.fresh + 1 })

/-- `storeArtists(...artists)`: resolve each name in order, returning the
identifier list and the updated state. -/
def storeArtists (artists : List String) (db : DB) : List String × DB :=
  artists.foldl
    (fun acc a => (acc.1 ++ [(storeArtistStep acc.2 a).1], (storeArtistStep acc.2 a).2))
    ([], db)

/-- `storeAlbum(album)`: when `album.album_name` is truthy, look the trimmed
name up under `COLLATE NOCASE`; keep the found id if truthy, else draw
`v4()`; then `INSERT OR REPLACE` the row — every row with that `album_id`
is deleted and a fresh row with the *document's* name, cover paths and
album artist is appended (unset columns become `NULL`).  Returns `""` for a
falsy/absent name (the JS value `undefined` coerced by the caller). -/
def storeAlbum (album : AlbumDoc) (db : DB) : String × DB :=
  match album.album_name with
  | some name =>
    if name ≠ "" then
      let found := (db.albums.find? (fun r => nocaseEq r.album_name (trimS name))).map
        (·.album_id)
      let (id, db') :=
        if strTruthy found then (found.getD "", db)
        else (freshId db.fresh, { db with fresh := db.fresh + 1 })
      (id, { db' with
              albums := db'.albums.filter (fun r => !(r.album_id == id)) ++
                [⟨id, name, album.album_coverPath_low, album.album_coverPath_high,
                  album.album_artist, none⟩] })
    else ("", db)
  | none => ("", db)

/-- One step of `storeGenre`: the lookup uses the *untrimmed* name, and the
inserted row also stores it untrimmed. -/
def storeGenreStep (db : DB) (a : String) : String × DB :=
  let found := (db.genre.find? (fun r => nocaseEq r.genre_name a)).map (·.genre_id)
  if strTruthy found then (found.getD "", db)
  else
    let id := freshId db.fresh
    (id, { db with
            genre := db.genre ++ [⟨id, a, none⟩],
            fresh := db.fresh + 1 })

/-- `storeGenre(genre?)`: resolve each genre name in order; an absent array
yields no identifiers. -/
def storeGenre (genre : Option (List String)) (db : DB) : List String × DB :=
  match genre with
  | some gs =>
    gs.foldl
      (fun acc a => (acc.1 ++ [(storeGenreStep acc.2 a).1], (storeGenreStep acc.2 a).2))
      ([], db)
  | none => ([], db)

/-! ## Bridge insertion -/

/-- `storeArtistBridge`: one `artists_bridge` row per resolved artist id. -/
def storeArtistBridge (artistID : List String) (songID : String) (db : DB) : DB :=
  { db with artists_bridge :=
      db.artists_bridge ++ artistID.map (fun i => ⟨songID, i⟩) }

/-- `storeGenreBridge`: one `genre_bridge` row per resolved genre id. -/
def storeGenreBridge (genreID : List String) (songID : String) (db : DB) : DB :=
  { db with genre_bridge :=
      db.genre_bridge ++ genreID.map (fun i => ⟨songID, i⟩) }

/-- `storeAlbumBridge`: one `album_bridge` row, only when the album id is
truthy. -/
def storeAlbumBridge (albumID : String) (songID : String) (db : DB) : DB :=
  if albumID ≠ "" then
    { db with album_bridge := db.album_bridge ++ [⟨songID, albumID⟩] }
  else db

/-- `store(newDoc)`: resolve artists, album and genres first (in that
order, mutating the entity tables), then — only if no `allsongs` row with
the marshaled `_id` exists — insert the song row and its three kinds of
bridge rows.  A JS `undefined` artists array skips `storeArtists`
(yielding `[]`); an `undefined` album yields the falsy id `''`. -/
def store (newDoc : SongDoc) (db : DB) : DB :=
  let (artistID, db1) :=
    match newDoc.artists with
    | some arr => storeArtists arr db
    | none => ([], db)
  let (albumID, db2) :=
    match newDoc.album with
    | some al => storeAlbum al db1
    | none => ("", db1)
  let (genreID, db3) := storeGenre newDoc.genre db2
  let m := marshalSong newDoc
  if (db3.allsongs.filter (fun r => r._id == m._id)).length == 0 then
    let db4 := { db3 with allsongs := db3.allsongs ++ [m] }
    let db5 := storeArtistBridge artistID m._id db4
    let db6 := storeGenreBridge genreID m._id db5
    storeAlbumBridge albumID m._id db6
  else db3

/-! ## Query construction

`populateWhereQuery`, `addOrderClause` and the query-building loop of
`getEntityByOptions`, kept string-faithful: the produced `WHERE` fragment
and argument list are exactly the ones the TypeScript builds. -/

/-- `sortBy` for song queries: a `Song` property name and a direction. -/
structure SortOptions where
  type : String
  asc : Bool
  deriving Repr, DecidableEq

/-- `SongAPIOptions`, modelled as `Object.entries` would iterate it: the
entity-keyed predicate objects in insertion order (each an ordered list of
`(column, value)` pairs), plus the two metadata keys `inclusive` and
`sortBy` that the loop skips. -/
structure SongOptions where
  entries : List (String × List (String × String))
  inclusive : Bool
  sortBy : Option SortOptions
  deriving Repr, DecidableEq

/-- `getTableByProperty`. -/
def getTableByProperty : String → Option String
  | "song" => some "allsongs"
  | "album" => some "albums"
  | "artist" => some "artists"
  | "genre" => some "genre"
  | "playlist" => some "playlists"
  | _ => none

/-- `getTitleColByProperty`. -/
def getTitleColByProperty : String → Option String
  | "song" => some "title"
  | "album" => some "album_name"
  | "artist" => some "artist_name"
  | "genre" => some "genre_name"
  | "playlist" => some "playlist_name"
  | _ => none

/-- One `where += ...; args.push(...)` step of `populateWhereQuery`: the
pushed argument is the value wrapped as `%value%`. -/
def songWhereStep (inclusive : Bool) (tableName : String)
    (st : String × List String × Bool) (pr : String × String) :
    String × List String × Bool :=
  let andOr := if st.2.2 then "" else if inclusive then "AND" else "OR"
  (st.1 ++ andOr ++ " " ++ tableName ++ "." ++ pr.1 ++ " LIKE ?",
   st.2.1 ++ ["%" ++ pr.2 ++ "%"], false)

/-- `populateWhereQuery(options?)`: build the `WHERE` fragment for a song
query.  Every predicate value is pushed wrapped as `%value%`; clauses are
chained with `AND` when `inclusive`, `OR` otherwise.  Zero predicates give
`('', [])`. -/
def populateWhereQuery (options : Option SongOptions) : String × List String :=
  match options with
  | some o =>
    let res := o.entries.foldl
      (fun st kv =>
        let tableName := (getTableByProperty kv.1).getD "undefined"
        kv.2.foldl (songWhereStep o.inclusive tableName) st)
      ("WHERE ", ([] : List String), true)
    if res.2.1.length == 0 then ("", []) else (res.1, res.2.1)
  | none => ("", [])

/-- `addOrderClause(sortBy?)` for song queries: `title` only when the
requested sort key is `'name'`, otherwise `date_added`. -/
def addOrderClause (sortBy : Option SortOptions) : String :=
  match sortBy with
  | some s =>
    "ORDER BY " ++ (if s.type == "name" then "title" else "date_added") ++
      " " ++ (if s.asc then "ASC" else "DESC")
  | none => ""

/-- The tail of the `getSongByOptions` SQL string after the `WHERE`
fragment: the `GROUP BY` stabilization on the song identifier followed by
the optional order clause. -/
def songQueryTail (sortBy : Option SortOptions) : String :=
  "GROUP BY allsongs._id " ++ addOrderClause sortBy

/-- The value attached to the single entity key of an `EntityApiOptions`
object: either a boolean (the `true` shortcut; `false` builds no
predicates either) or a predicate object, as `Object.entries` iterates
it. -/
inductive OptVal where
  | b (b : Bool)
  | obj (preds : List (String × String))
  deriving Repr, DecidableEq

/-- `EntityApiOptions`: the union type carries exactly one entity key
(`album`/`artist`/`genre`/`playlist`), its value, and the `inclusive`
flag, which `getTableByProperty` rejects and the loop therefore skips. -/
structure EntityOptions where
  inclusive : Bool
  key : String
  value : OptVal
  deriving Repr, DecidableEq

/-- The pieces `getEntityByOptions` accumulates while looping over the
options object. -/
structure EntityParts where
  table : Option String
  whereStr : String
  args : List String
  preds : List (String × String)
  orderBy : Option String
  deriving Repr, DecidableEq

/-- One `where += ...; args.push(...)` step of the `getEntityByOptions`
loop: the pushed argument is the *raw* value, not wrapped in `%`. -/
def entityWhereStep (inclusive : Bool) (st : String × List String × Bool)
    (pr : String × String) : String × List String × Bool :=
  let andOr := if st.2.2 then "" else if inclusive then "AND" else "OR"
  (st.1 ++ andOr ++ " " ++ pr.1 ++ " LIKE ?", st.2.1 ++ [pr.2], false)

/-- The query-building loop of `getEntityByOptions`: pick the table and
order column for the entity key; a boolean value short-circuits with no
predicates; an object value contributes one `innerKey LIKE ?` clause per
entry with the *raw* value pushed as argument. -/
def entityQueryParts (o : EntityOptions) : EntityParts :=
  match getTableByProperty o.key with
  | none => ⟨none, "WHERE ", [], [], none⟩
  | some tbl =>
    let orderBy := some (tbl ++ "." ++ (getTitleColByProperty o.key).getD "undefined")
    match o.value with
    | .b _ => ⟨some tbl, "WHERE ", [], [], orderBy⟩
    | .obj preds =>
      let res := preds.foldl (entityWhereStep o.inclusive)
        ("WHERE ", ([] : List String), true)
      ⟨some tbl, res.1, res.2.1, preds, orderBy⟩

/-- The full SQL string `getEntityByOptions` executes:
`SELECT * FROM <table>  [WHERE ...] ORDER BY <table>.<titleCol> ASC` —
the direction is hard-coded `ASC`. -/
def entityQueryString (o : EntityOptions) : String :=
  let parts := entityQueryParts o
  let query := "SELECT * FROM " ++ (match parts.table with
    | some t => t ++ " "
    | none => "")
  query ++ " " ++ (if parts.args.length > 0 then parts.whereStr else "") ++
    " ORDER BY " ++ parts.orderBy.getD "undefined" ++ " ASC"

/-! ## Query evaluation -/

/-- Column access on an `albums` row (`NULL` columns yield `none`). -/
def AlbumRow.col (r : AlbumRow) : String → Option String
  | "album_id" => some r.album_id
  | "album_name" => some r.album_name
  | "album_coverPath_low" => r.album_coverPath_low
  | "album_coverPath_high" => r.album_coverPath_high
  | "album_artist" => r.album_artist
  | "album_song_count" => r.album_song_count.map toString
  | _ => none

/-- Column access on an `artists` row. -/
def ArtistRow.col (r : ArtistRow) : String → Option String
  | "artist_id" => some r.artist_id
  | "artist_name" => some r.artist_name
  | "artist_coverPath" => r.artist_coverPath
  | "artist_song_count" => r.artist_song_count.map toString
  | _ => none

/-- Column access on a `genre` row. -/
def GenreRow.col (r : GenreRow) : String → Option String
  | "genre_id" => some r.genre_id
  | "genre_name" => some r.genre_name
  | "genre_song_count" => r.genre_song_count.map toString
  | _ => none

/-- Column access on a `playlists` row. -/
def PlaylistRow.col (r : PlaylistRow) : String → Option String
  | "playlist_id" => some r.playlist_id
  | "playlist_name" => some r.playlist_name
  | "playlist_desc" => r.playlist_desc
  | "playlist_coverPath" => r.playlist_coverPath
  | "playlist_song_count" => r.playlist_song_count.map toString
  | _ => none

/-- Column access on an `allsongs` row. -/
def SongRow.col (r : SongRow) : String → Option String
  | "_id" => some r._id
  | "title" => some r.title
  | "path" => r.path
  | "song_coverPath_low" => r.song_coverPath_low
  | "song_coverPath_high" => r.song_coverPath_high
  | _ => none

/-- Evaluate the built `WHERE` clause on one row: no predicates means no
`WHERE` (every row passes); otherwise the `col LIKE ?` clauses are chained
with `AND` (`inclusive`) or `OR`, and a `NULL` column never matches. -/
def rowMatchesPreds (getCol : String → Option String) (inclusive : Bool)
    (preds : List (String × String)) : Bool :=
  if preds.isEmpty then true
  else
    let one := fun (pr : String × String) =>
      match getCol pr.1 with
      | some v => likeMatch pr.2.data v.data
      | none => false
    if inclusive then preds.all one else preds.any one

/-- Insert into a list sorted by `le` (used for `ORDER BY ... ASC`). -/
def insertLe {α : Type} (le : α → α → Bool) (x : α) : List α → List α
  | [] => [x]
  | y :: ys => if le x y then x :: y :: ys else y :: insertLe le x ys

/-- Insertion sort by `le` (used for `ORDER BY ... ASC`). -/
def sortByLe {α : Type} (le : α → α → Bool) (l : List α) : List α :=
  l.foldr (insertLe le) []

/-- The rows `getEntityByOptions` returns, tagged by the table they came
from. -/
inductive EntityRows where
  | albums (rows : List AlbumRow)
  | artists (rows : List ArtistRow)
  | genres (rows : List GenreRow)
  | playlists (rows : List PlaylistRow)
  | songs (rows : List SongRow)
  | empty
  deriving Repr, DecidableEq

/-- The album rows of an entity result (the `as Album[]` cast). -/
def EntityRows.albumRows : EntityRows → List AlbumRow
  | .albums l => l
  | _ => []

/-- The artist rows of an entity result (the `as artists[]` cast). -/
def EntityRows.artistRows : EntityRows → List ArtistRow
  | .artists l => l
  | _ => []

/-- `getEntityByOptions(options)`: filter the selected table by the built
predicates and sort by the category's title column ascending. -/
def getEntityByOptions (db : DB) (o : EntityOptions) : EntityRows :=
  let parts := entityQueryParts o
  match parts.table with
  | some "albums" =>
    .albums (sortByLe (fun a b => decide (a.album_name ≤ b.album_name))
      (db.albums.filter (fun r => rowMatchesPreds r.col o.inclusive parts.preds)))
  | some "artists" =>
    .artists (sortByLe (fun a b => decide (a.artist_name ≤ b.artist_name))
      (db.artists.filter (fun r => rowMatchesPreds r.col o.inclusive parts.preds)))
  | some "genre" =>
    .genres (sortByLe (fun a b => decide (a.genre_name ≤ b.genre_name))
      (db.genre.filter (fun r => rowMatchesPreds r.col o.inclusive parts.preds)))
  | some "playlists" =>
    .playlists (sortByLe (fun a b => decide (a.playlist_name ≤ b.playlist_name))
      (db.playlists.filter (fun r => rowMatchesPreds r.col o.inclusive parts.preds)))
  | some "allsongs" =>
    .songs (sortByLe (fun a b => decide (a.title ≤ b.title))
      (db.allsongs.filter (fun r => rowMatchesPreds r.col o.inclusive parts.preds)))
  | _ => .empty

/-! ## `searchAll` query construction -/

/-- The song query `searchAll(term)` issues: `{song: {path: term}}`. -/
def searchAllSongWhere (term : String) : String × List String :=
  populateWhereQuery (some ⟨[("song", [("path", term)])], false, none⟩)

/-- The album query `searchAll(term)` issues: `{album: {album_name: term}}`. -/
def searchAllAlbumParts (term : String) : EntityParts :=
  entityQueryParts ⟨false, "album", .obj [("album_name", term)]⟩

/-- The artist query `searchAll(term)` issues: `{artist: {artist_name: term}}`. -/
def searchAllArtistParts (term : String) : EntityParts :=
  entityQueryParts ⟨false, "artist", .obj [("artist_name", term)]⟩

/-- The genre query `searchAll(term)` issues: `{genre: {genre_name: term}}`. -/
def searchAllGenreParts (term : String) : EntityParts :=
  entityQueryParts ⟨false, "genre", .obj [("genre_name", term)]⟩

/-! ## Cascade delete: `getCountBySong` and `removeSong` -/

/-- One result row of `getCountBySong`: the aggregate
`SELECT count(id) as count, <column> FROM <bridge> WHERE <column> = ?`. -/
structure CountRow where
  count : Nat
  ent : String
  deriving Repr, DecidableEq

/-- `getCountBySong('album_bridge', 'album', song)`: for each album bridge
row of the song, how many bridge rows reference that album in total. -/
def getCountBySongAlbum (db : DB) (song : String) : List CountRow :=
  (db.album_bridge.filter (fun r => r.song == song)).map
    (fun r => ⟨db.album_bridge.countP (fun x => x.album == r.album), r.album⟩)

/-- `getCountBySong('artists_bridge', 'artist', song)`: for each artist
bridge row of the song, how many bridge rows reference that artist in
total. -/
def getCountBySongArtist (db : DB) (song : String) : List CountRow :=
  (db.artists_bridge.filter (fun r => r.song == song)).map
    (fun r => ⟨db.artists_bridge.countP (fun x => x.artist == r.artist), r.artist⟩)

/-- The album loop body of `removeSong`: when the snapshotted reference
count is exactly 1, look the album up (`getEntityByOptions` with its
`album_id`, a raw `LIKE` probe), delete the `albums` row, and push its
truthy cover paths (low first, then high). -/
def removeAlbumStep (st : DB × List String) (idr : CountRow) : DB × List String :=
  if idr.count == 1 then
    let album? := (getEntityByOptions st.1
      ⟨false, "album", .obj [("album_id", idr.ent)]⟩).albumRows.head?
    let db' := { st.1 with
      albums := st.1.albums.filter (fun r => !(r.album_id == idr.ent)) }
    (db', st.2 ++ (match album? with
      | some a => pushTruthy a.album_coverPath_low ++ pushTruthy a.album_coverPath_high
      | none => []))
  else st

/-- The artist loop body of `removeSong`: when the snapshotted reference
count is exactly 1, look the artist up, delete the `artists` row, and push
its truthy cover path; otherwise only a `console.log` happens. -/
def removeArtistStep (st : DB × List String) (idr : CountRow) : DB × List String :=
  if idr.count == 1 then
    let artist? := (getEntityByOptions st.1
      ⟨false, "artist", .obj [("artist_id", idr.ent)]⟩).artistRows.head?
    let db' := { st.1 with
      artists := st.1.artists.filter (fun r => !(r.artist_id == idr.ent)) }
    (db', st.2 ++ (match artist? with
      | some a => pushTruthy a.artist_coverPath
      | none => []))
  else st

/-- The transactional body of `removeSong(song_id)`: snapshot the album and
artist reference counts, capture the song's truthy cover paths, delete the
song's rows from the four bridge tables and from `allsongs`, then run the
album and artist cascade loops.  Returns the final state and the
`pathsToRemove` list in push order. -/
def removeSongDB (db : DB) (song_id : String) : DB × List String :=
  let album_ids := getCountBySongAlbum db song_id
  let artist_ids := getCountBySongArtist db song_id
  let low := (db.allsongs.find? (fun r => r._id == song_id)).bind
    (·.song_coverPath_low)
  let high := (db.allsongs.find? (fun r => r._id == song_id)).bind
    (·.song_coverPath_high)
  let db1 := { db with
    artists_bridge := db.artists_bridge.filter (fun r => !(r.song == song_id)),
    album_bridge := db.album_bridge.filter (fun r => !(r.song == song_id)),
    genre_bridge := db.genre_bridge.filter (fun r => !(r.song == song_id)),
    playlist_bridge := db.playlist_bridge.filter (fun r => !(r.song == song_id)),
    allsongs := db.allsongs.filter (fun r => !(r._id == song_id)) }
  let st1 := album_ids.foldl removeAlbumStep (db1, pushTruthy low ++ pushTruthy high)
  artist_ids.foldl removeArtistStep st1

/-! ## Count recomputation sweeps -/

/-- One iteration of the `updateSongCountAlbum` loop: the SQL `UPDATE
albums SET album_song_count = <cnt aid> WHERE album_id = ?`, where `cnt`
is the live bridge count. -/
def albumSweepStep (cnt : String → Nat) (acc : List AlbumRow) (aid : String) :
    List AlbumRow :=
  acc.map (fun r =>
    if r.album_id == aid then { r with album_song_count := some (cnt aid) }
    else r)

/-- `updateSongCountAlbum()`: for each snapshotted `album_id`, set
`album_song_count` of every row with that id to the live count of
`album_bridge` rows referencing it. -/
def updateSongCountAlbum (db : DB) : DB :=
  let cnt := fun aid => db.album_bridge.countP (fun b => b.album == aid)
  let swept := (db.albums.map (·.album_id)).foldl (albumSweepStep cnt) db.albums
  { db with albums := swept }

/-- `updateSongCountPlaylists()`: the same sweep over `playlists` and
`playlist_bridge`. -/
def updateSongCountPlaylists (db : DB) : DB :=
  let swept := (db.playlists.map (·.playlist_id)).foldl
    (fun acc pid => acc.map (fun r =>
      if r.playlist_id == pid then
        let c := some (db.playlist_bridge.countP (fun b => b.playlist == pid))
        { r with playlist_song_count := c }
      else r))
    db.playlists
  { db with playlists := swept }

/-- `removeFromPlaylist(playlist, ...songs)`: the body iterates with
`for (const s in songs)`, so `s` ranges over the array's *index keys*
`"0"`, `"1"`, … as strings, and each delete targets
`{playlist, song: <index string>}`; afterwards the playlist count sweep
runs. -/
def removeFromPlaylist (playlist : String) (songs : List String) (db : DB) : DB :=
  let db' := (List.range songs.length).foldl
    (fun acc i => { acc with
      playlist_bridge := acc.playlist_bridge.filter
        (fun r => !(r.playlist == playlist && r.song == toString i)) })
    db
  updateSongCountPlaylists db'

/-! ## Post-commit filesystem cleanup

`removeSong` ends with `for (const path of pathsToRemove) await
fsP.rm(path, { force: true })` inside an `async` method with no
`try`/`catch`.  The filesystem is an oracle assigning each path an error
code or success; `force: true` makes Node's `fs.rm` ignore exactly the
does-not-exist error, every other rejection propagates. -/

/-- A filesystem oracle: the error code `rm` would fail with on a path, or
`none` for success. -/
def FsEnv : Type := String → Option String

/-- `fsP.rm(path, { force })`: with `force`, a missing path (`ENOENT`) is
ignored; any other error rejects. -/
def fsRm (env : FsEnv) (path : String) (force : Bool) : Except String Unit :=
  match env path with
  | none => .ok ()
  | some code => if force && code == "ENOENT" then .ok () else .error code

/-- The cleanup loop of `removeSong`: sequential awaited `rm` calls, so the
first rejection aborts the loop and escapes the method. -/
def removeSongCleanup (env : FsEnv) : List String → Except String Unit
  | [] => .ok ()
  | p :: rest =>
    match fsRm env p true with
    | .ok _ => removeSongCleanup env rest
    | .error e => .error e

/-- `removeSong(song_id)` including the post-transaction cleanup: the
database part always commits, then the cleanup loop runs; its first
failure becomes the rejection of the whole call. -/
def removeSongFull (env : FsEnv) (db : DB) (song_id : String) :
    Except String (DB × List String) :=
  let res := removeSongDB db song_id
  match removeSongCleanup env res.2 with
  | .ok _ => .ok res
  | .error e => .error e

/-! ## Helper lemmas -/

/-- Generated identifiers are never the empty string, so they are always
JS-truthy. -/
theorem freshId_ne_empty (n : Nat) : freshId n ≠ "" := by
  intro h
  have h2 := congrArg String.data h
  simp [freshId, String.data_append] at h2

/-- `NOCASE` equality is reflexive. -/
theorem nocaseEq_refl (s : String) : nocaseEq s s = true := by
  simp [nocaseEq]

/-- Two probes with the same case-folding are interchangeable in a
`NOCASE` comparison. -/
theorem nocaseEq_congr (x a b : String) (h : caseFold a = caseFold b) :
    nocaseEq x a = nocaseEq x b := by
  simp [nocaseEq, h]

/-- `find?` only depends on the pointwise behaviour of its predicate. -/
theorem find?_congr_pred {α : Type} (p q : α → Bool) (h : ∀ a, p a = q a) :
    ∀ l : List α, l.find? p = l.find? q := by
  intro l
  induction l with
  | nil => rfl
  | cons x xs ih =>
    by_cases hx : p x = true
    · rw [List.find?_cons_of_pos _ hx, List.find?_cons_of_pos _ ((h x) ▸ hx)]
    · rw [List.find?_cons_of_neg _ hx,
        List.find?_cons_of_neg _ (by rw [← h x]; exact hx), ih]

/-- A pattern free of the `LIKE` wildcards `%` and `_` matches itself. -/
theorem likeMatch_self (l : List Char) (hp : '%' ∉ l) (hu : '_' ∉ l) :
    likeMatch l l = true := by
  induction l with
  | nil => simp [likeMatch]
  | cons c cs ih =>
    have hc1 : c ≠ '%' := fun h => hp (h ▸ List.mem_cons_self c cs)
    have hc2 : c ≠ '_' := fun h => hu (h ▸ List.mem_cons_self c cs)
    rw [likeMatch]
    simp [hc1, hc2,
      ih (fun h => hp (List.mem_cons_of_mem c h))
        (fun h => hu (List.mem_cons_of_mem c h))]

/-! ## C4: album detail fields on a name match -/

/-- C4 counterexample: the claim "storing a song referencing an existing
album name leaves the existing album row's cover-path fields unchanged"
fails.  With an album row `("i", "A", cover_low = "x")` already present,
`storeAlbum` for the same name `"A"` with cover `"y"` keeps the identifier
but rewrites the row, so the stored low cover becomes `"y"`, not `"x"`. -/
theorem c4_counterexample_album_details_overwritten :
    (storeAlbum ⟨some "A", some "y", none, none⟩
        { DB.empty with albums := [⟨"i", "A", some "x", none, none, none⟩] }).2.albums
      = [⟨"i", "A", some "y", none, none, none⟩] ∧
    (some "y" ≠ some "x") := by
  constructor
  · rfl
  · decide

/-- C4 (amended): on a case-insensitive name match, `storeAlbum` *keeps
the existing identifier* but — because of `INSERT OR REPLACE` — rewrites
the row with the incoming document's name, cover paths and album artist
(and a `NULL` song count); the detail fields are overwritten on every
store, not only on first insert. -/
theorem c4_album_replace_semantics (al : AlbumDoc) (name : String) (db : DB)
    (r : AlbumRow) (hname : al.album_name = some name) (hne : name ≠ "")
    (hfind : db.albums.find? (fun row => nocaseEq row.album_name (trimS name)) = some r)
    (hid : r.album_id ≠ "") :
    (storeAlbum al db).1 = r.album_id ∧
    (storeAlbum al db).2.albums =
      db.albums.filter (fun row => !(row.album_id == r.album_id)) ++
        [⟨r.album_id, name, al.album_coverPath_low, al.album_coverPath_high,
          al.album_artist, none⟩] := by
  simp [storeAlbum, hname, hne, hfind, strTruthy, hid]

/-- C4 witness: the amended replace-semantics theorem applied at a
concrete database and album document. -/
theorem c4_album_replace_witness :
    (storeAlbum ⟨some "B", some "lo", some "hi", some "AA"⟩
        { DB.empty with albums := [⟨"k", "b", none, none, none, none⟩] }).1 = "k" ∧
    (storeAlbum ⟨some "B", some "lo", some "hi", some "AA"⟩
        { DB.empty with albums := [⟨"k", "b", none, none, none, none⟩] }).2.albums =
      [⟨"k", "B", some "lo", some "hi", some "AA", none⟩] := by
  have h := c4_album_replace_semantics ⟨some "B", some "lo", some "hi", some "AA"⟩
    "B" { DB.empty with albums := [⟨"k", "b", none, none, none, none⟩] }
    ⟨"k", "b", none, none, none, none⟩ rfl (by decide) (by rfl) (by decide)
  refine ⟨h.1, ?_⟩
  rw [h.2]
  rfl

/-! ## C8: sort clauses -/

/-- C8 counterexample: the claim "song queries with a sort specification
are ordered by the title column" fails: a sort request whose key is
anything other than `'name'` (here `'year'`, ascending) produces
`ORDER BY date_added ASC`, not `ORDER BY title ASC`. -/
theorem c8_counterexample_sort_not_title :
    addOrderClause (some ⟨"year", true⟩) = "ORDER BY date_added ASC" ∧
    ("ORDER BY date_added ASC" : String) ≠ "ORDER BY title ASC" := by
  constructor
  · rfl
  · decide

/-- C8 (amended): a song-query sort orders by `title` exactly when the
requested key is `'name'` and by `date_added` otherwise, ascending or
descending per the flag; without a sort request the song query carries
only the `GROUP BY allsongs._id` stabilization.  Entity queries always
order by the category's title column (`albums.album_name`,
`artists.artist_name`, `genre.genre_name`, `playlists.playlist_name`) and
always ascending — the final `ASC` is hard-coded in the query string. -/
theorem c8_order_clause_amended :
    addOrderClause none = "" ∧
    (∀ so : SortOptions, so.type = "name" →
      addOrderClause (some so) =
        if so.asc then "ORDER BY title ASC" else "ORDER BY title DESC") ∧
    (∀ so : SortOptions, so.type ≠ "name" →
      addOrderClause (some so) =
        if so.asc then "ORDER BY date_added ASC" else "ORDER BY date_added DESC") ∧
    songQueryTail none = "GROUP BY allsongs._id " ∧
    (∀ (incl : Bool) (v : OptVal),
      (entityQueryParts ⟨incl, "album", v⟩).orderBy = some "albums.album_name") ∧
    (∀ (incl : Bool) (v : OptVal),
      (entityQueryParts ⟨incl, "artist", v⟩).orderBy = some "artists.artist_name") ∧
    (∀ (incl : Bool) (v : OptVal),
      (entityQueryParts ⟨incl, "genre", v⟩).orderBy = some "genre.genre_name") ∧
    (∀ (incl : Bool) (v : OptVal),
      (entityQueryParts ⟨incl, "playlist", v⟩).orderBy = some "playlists.playlist_name") ∧
    (∀ o : EntityOptions, ∃ rest : String, entityQueryString o = rest ++ " ASC") := by
  refine ⟨rfl, ?_, ?_, rfl, ?_, ?_, ?_, ?_, ?_⟩
  · intro so h
    cases hs : so.asc <;> simp [addOrderClause, h, hs]
  · intro so h
    have hb : (so.type == "name") = false := by
      simp [h]
    cases hs : so.asc <;> simp [addOrderClause, hb, hs]
  · intro incl v
    cases v <;> rfl
  · intro incl v
    cases v <;> rfl
  · intro incl v
    cases v <;> rfl
  · intro incl v
    cases v <;> rfl
  · intro o
    exact ⟨_, rfl⟩

/-- C8 witness: the amended sort-clause theorem applied at concrete sort
specifications and entity options. -/
theorem c8_order_clause_witness :
    addOrderClause (some ⟨"name", true⟩) = "ORDER BY title ASC" ∧
    addOrderClause (some ⟨"year", false⟩) = "ORDER BY date_added DESC" ∧
    (entityQueryParts ⟨false, "artist", .obj [("artist_name", "x")]⟩).orderBy =
      some "artists.artist_name" := by
  refine ⟨?_, ?_, c8_order_clause_amended.2.2.2.2.2.1 false (.obj [("artist_name", "x")])⟩
  · have h := c8_order_clause_amended.2.1 ⟨"name", true⟩ rfl
    simpa using h
  · have h := c8_order_clause_amended.2.2.1 ⟨"year", false⟩ (by decide)
    simpa using h

/-! ## C7: post-commit cleanup error propagation -/

/-- A single `rm` with `force: true` succeeds exactly when the path either
has no error or fails with the does-not-exist code. -/
theorem fsRm_force_ok_iff (env : FsEnv) (p : String) :
    fsRm env p true = .ok () ↔ env p = none ∨ env p = some "ENOENT" := by
  unfold fsRm
  cases h : env p with
  | none => simp
  | some code =>
    by_cases hc : code = "ENOENT"
    · subst hc
      simp
    · have hb : (code == "ENOENT") = false := by simp [hc]
      simp [hb, hc]

/-- The cleanup loop succeeds exactly when every captured path either has
no error or fails only with the does-not-exist code. -/
theorem removeSongCleanup_ok_iff (env : FsEnv) (paths : List String) :
    removeSongCleanup env paths = .ok () ↔
      ∀ p ∈ paths, env p = none ∨ env p = some "ENOENT" := by
  induction paths with
  | nil => simp [removeSongCleanup]
  | cons p rest ih =>
    rw [removeSongCleanup]
    cases h : fsRm env p true with
    | ok u =>
      cases u
      have hp := (fsRm_force_ok_iff env p).mp h
      simp only [List.mem_cons]
      constructor
      · intro hrest q hq
        rcases hq with hq | hq
        · exact hq ▸ hp
        · exact ih.mp hrest q hq
      · intro hall
        exact ih.mpr (fun q hq => hall q (Or.inr hq))
    | error e =>
      have hp : ¬(env p = none ∨ env p = some "ENOENT") := by
        intro hor
        rw [(fsRm_force_ok_iff env p).mpr hor] at h
        cases h
      simp only [List.mem_cons]
      constructor
      · intro hfalse
        cases hfalse
      · intro hall
        exact absurd (hall p (Or.inl rfl)) hp

/-- C7 counterexample: the claim "a deletion failure for any individual
file is swallowed and never propagated, regardless of the kind of
filesystem error" fails.  Removing the sole song, whose low cover path is
`"p"`, when the filesystem reports `EACCES` for `"p"`, makes the whole
`removeSong` call reject with that error: only `ENOENT` is suppressed by
`{ force: true }`. -/
theorem c7_counterexample_eacces_propagates :
    removeSongFull (fun q => if q == "p" then some "EACCES" else none)
      { DB.empty with allsongs := [⟨"s", "t", none, some "p", none⟩] } "s" =
      Except.error "EACCES" := by
  rfl

/-- C7 (amended): after the transaction, cover-path deletion is
best-effort only against *missing files*: `removeSong` resolves exactly
when every captured path either deletes cleanly or fails with the
does-not-exist error (`ENOENT`, ignored by `force: true`); any other
filesystem error for any path rejects the whole call. -/
theorem c7_cleanup_error_semantics (env : FsEnv) (db : DB) (id : String) :
    removeSongFull env db id = .ok (removeSongDB db id) ↔
      ∀ p ∈ (removeSongDB db id).2, env p = none ∨ env p = some "ENOENT" := by
  have hstep : removeSongFull env db id = .ok (removeSongDB db id) ↔
      removeSongCleanup env (removeSongDB db id).2 = .ok () := by
    unfold removeSongFull
    cases h : removeSongCleanup env (removeSongDB db id).2 with
    | ok u =>
      cases u
      simp [h]
    | error e =>
      simp [h]
  rw [hstep]
  exact removeSongCleanup_ok_iff env _

/-- C7 witness: the amended cleanup theorem applied at a concrete state
whose captured path fails with `ENOENT` — the call still resolves. -/
theorem c7_cleanup_witness :
    removeSongFull (fun _ => some "ENOENT")
      { DB.empty with allsongs := [⟨"s", "t", none, some "p", none⟩] } "s" =
      .ok (removeSongDB
        { DB.empty with allsongs := [⟨"s", "t", none, some "p", none⟩] } "s") := by
  exact (c7_cleanup_error_semantics (fun _ => some "ENOENT") _ "s").mpr
    (fun p _ => Or.inr rfl)

/-! ## C9: `updateSongCountAlbum` correctness -/

/-- Invariant of the album sweep loop: once every remaining row either
already carries the correct count or still has its id in the worklist,
the finished fold carries the correct count everywhere. -/
theorem albumSweep_inv (cnt : String → Nat) :
    ∀ (ids : List String) (acc : List AlbumRow),
      (∀ r ∈ acc, r.album_song_count = some (cnt r.album_id) ∨ r.album_id ∈ ids) →
      ∀ r ∈ ids.foldl (albumSweepStep cnt) acc,
        r.album_song_count = some (cnt r.album_id) := by
  intro ids
  induction ids with
  | nil =>
    intro acc h r hr
    rcases h r hr with h1 | h2
    · exact h1
    · cases h2
  | cons aid rest ih =>
    intro acc h r hr
    rw [List.foldl_cons] at hr
    refine ih (albumSweepStep cnt acc aid) ?_ r hr
    intro x hx
    rcases List.mem_map.mp hx with ⟨y, hy, hxy⟩
    by_cases hb : (y.album_id == aid) = true
    · rw [if_pos hb] at hxy
      left
      rw [← hxy]
      simp only []
      rw [eq_of_beq hb]
    · rw [if_neg hb] at hxy
      subst hxy
      rcases h y hy with h1 | h2
      · exact Or.inl h1
      · rcases List.mem_cons.mp h2 with h3 | h3
        · exact absurd (by rw [h3]; exact beq_self_eq_true aid) hb
        · exact Or.inr h3

/-- C9: after `updateSongCountAlbum`, every `albums` row caches exactly
the number of `album_bridge` rows whose `album` column equals its
`album_id`. -/
theorem c9_update_song_count_album (db : DB) :
    ((updateSongCountAlbum db).albums.all (fun r =>
      r.album_song_count == some ((updateSongCountAlbum db).album_bridge.countP
        (fun b => b.album == r.album_id)))) = true := by
  apply List.all_eq_true.mpr
  intro r hr
  have hb : (updateSongCountAlbum db).album_bridge = db.album_bridge := rfl
  rw [hb, beq_iff_eq]
  have hmem : r ∈ (db.albums.map (·.album_id)).foldl
      (albumSweepStep (fun aid => db.album_bridge.countP (fun b => b.album == aid)))
      db.albums := hr
  exact albumSweep_inv _ _ _
    (fun x hx => Or.inr (List.mem_map_of_mem _ hx)) r hmem

/-! ## C10: `removeFromPlaylist` deletes index strings -/

/-- The delete loop of `removeFromPlaylist`, fused: folding the per-index
filters equals one filter testing membership of the `song` column among
the decimal index strings. -/
theorem rfp_fold_filter (p : String) :
    ∀ (idx : List Nat) (d : DB),
      (idx.foldl (fun acc i => { acc with
          playlist_bridge := acc.playlist_bridge.filter
            (fun r => !(r.playlist == p && r.song == toString i)) }) d).playlist_bridge
        = d.playlist_bridge.filter
            (fun r => !(r.playlist == p && idx.any (fun i => r.song == toString i))) := by
  intro idx
  induction idx with
  | nil =>
    intro d
    simp
  | cons i rest ih =>
    intro d
    rw [List.foldl_cons, ih]
    simp only [List.filter_filter]
    apply List.filter_congr
    intro r _
    simp only [List.any_cons]
    cases hpl : (r.playlist == p) <;>
      cases hs : (r.song == toString i) <;>
        cases hrest : (rest.any (fun j => r.song == toString j)) <;> rfl

/-- C10: `removeFromPlaylist(playlist, ...songs)` deletes exactly the
bridge rows of that playlist whose `song` column equals one of the decimal
index strings `"0" … "(n-1)"` (the `for (const s in songs)` loop iterates
array indices, not elements); any given song identifier that is not such
an index string keeps its bridge row. -/
theorem c10_remove_from_playlist_indices (p : String) (songs : List String) (db : DB) :
    (removeFromPlaylist p songs db).playlist_bridge =
      db.playlist_bridge.filter
        (fun r => !(r.playlist == p &&
          (List.range songs.length).any (fun i => r.song == toString i))) ∧
    (∀ s ∈ songs, (∀ i, i < songs.length → toString i ≠ s) →
      ∀ r ∈ db.playlist_bridge, r.playlist = p → r.song = s →
        r ∈ (removeFromPlaylist p songs db).playlist_bridge) := by
  have hmain : (removeFromPlaylist p songs db).playlist_bridge =
      db.playlist_bridge.filter
        (fun r => !(r.playlist == p &&
          (List.range songs.length).any (fun i => r.song == toString i))) := by
    unfold removeFromPlaylist
    have hps : ∀ x : DB, (updateSongCountPlaylists x).playlist_bridge =
        x.playlist_bridge := fun _ => rfl
    rw [hps]
    exact rfp_fold_filter p (List.range songs.length) db
  refine ⟨hmain, ?_⟩
  intro s _ hnidx r hr hrp hrs
  rw [hmain]
  apply List.mem_filter.mpr
  refine ⟨hr, ?_⟩
  have hany : ((List.range songs.length).any (fun i => r.song == toString i)) = false := by
    apply List.any_eq_false.mpr
    intro i hi
    intro hcon
    have : r.song = toString i := eq_of_beq hcon
    rw [hrs] at this
    exact hnidx i (List.mem_range.mp hi) this.symm
  rw [hany]
  simp

/-- C10 witness: removing `["sA", "sB"]` from playlist `"p"` deletes the
rows whose song column is `"0"` or `"1"` and keeps the row of `"sA"`
itself. -/
theorem c10_remove_from_playlist_witness :
    (removeFromPlaylist "p" ["sA", "sB"]
        { DB.empty with playlist_bridge :=
            [⟨"p", "sA"⟩, ⟨"p", "0"⟩, ⟨"p", "1"⟩, ⟨"q", "0"⟩] }).playlist_bridge =
      [⟨"p", "sA"⟩, ⟨"q", "0"⟩] ∧
    (⟨"p", "sA"⟩ : PlaylistBridgeRow) ∈
      (removeFromPlaylist "p" ["sA", "sB"]
        { DB.empty with playlist_bridge :=
            [⟨"p", "sA"⟩, ⟨"p", "0"⟩, ⟨"p", "1"⟩, ⟨"q", "0"⟩] }).playlist_bridge := by
  constructor
  · rw [(c10_remove_from_playlist_indices "p" ["sA", "sB"] _).1]
    rfl
  · exact (c10_remove_from_playlist_indices "p" ["sA", "sB"] _).2 "sA"
      (by decide) (by decide) ⟨"p", "sA"⟩ (by decide) rfl rfl

/-! ## C5: no dangling bridge rows after `removeSong` -/

/-- The album cascade loop never touches the four bridge tables. -/
theorem removeAlbumFold_bridges (ids : List CountRow) :
    ∀ st : DB × List String,
      (ids.foldl removeAlbumStep st).1.artists_bridge = st.1.artists_bridge ∧
      (ids.foldl removeAlbumStep st).1.album_bridge = st.1.album_bridge ∧
      (ids.foldl removeAlbumStep st).1.genre_bridge = st.1.genre_bridge ∧
      (ids.foldl removeAlbumStep st).1.playlist_bridge = st.1.playlist_bridge := by
  induction ids with
  | nil => intro st; exact ⟨rfl, rfl, rfl, rfl⟩
  | cons i rest ih =>
    intro st
    rw [List.foldl_cons]
    have hstep : (removeAlbumStep st i).1.artists_bridge = st.1.artists_bridge ∧
        (removeAlbumStep st i).1.album_bridge = st.1.album_bridge ∧
        (removeAlbumStep st i).1.genre_bridge = st.1.genre_bridge ∧
        (removeAlbumStep st i).1.playlist_bridge = st.1.playlist_bridge := by
      unfold removeAlbumStep
      by_cases h : (i.count == 1) = true
      · rw [if_pos h]
        exact ⟨rfl, rfl, rfl, rfl⟩
      · rw [if_neg h]
        exact ⟨rfl, rfl, rfl, rfl⟩
    have hrest := ih (removeAlbumStep st i)
    exact ⟨hrest.1.trans hstep.1, hrest.2.1.trans hstep.2.1,
      hrest.2.2.1.trans hstep.2.2.1, hrest.2.2.2.trans hstep.2.2.2⟩

/-- The artist cascade loop never touches the four bridge tables. -/
theorem removeArtistFold_bridges (ids : List CountRow) :
    ∀ st : DB × List String,
      (ids.foldl removeArtistStep st).1.artists_bridge = st.1.artists_bridge ∧
      (ids.foldl removeArtistStep st).1.album_bridge = st.1.album_bridge ∧
      (ids.foldl removeArtistStep st).1.genre_bridge = st.1.genre_bridge ∧
      (ids.foldl removeArtistStep st).1.playlist_bridge = st.1.playlist_bridge := by
  induction ids with
  | nil => intro st; exact ⟨rfl, rfl, rfl, rfl⟩
  | cons i rest ih =>
    intro st
    rw [List.foldl_cons]
    have hstep : (removeArtistStep st i).1.artists_bridge = st.1.artists_bridge ∧
        (removeArtistStep st i).1.album_bridge = st.1.album_bridge ∧
        (removeArtistStep st i).1.genre_bridge = st.1.genre_bridge ∧
        (removeArtistStep st i).1.playlist_bridge = st.1.playlist_bridge := by
      unfold removeArtistStep
      by_cases h : (i.count == 1) = true
      · rw [if_pos h]
        exact ⟨rfl, rfl, rfl, rfl⟩
      · rw [if_neg h]
        exact ⟨rfl, rfl, rfl, rfl⟩
    have hrest := ih (removeArtistStep st i)
    exact ⟨hrest.1.trans hstep.1, hrest.2.1.trans hstep.2.1,
      hrest.2.2.1.trans hstep.2.2.1, hrest.2.2.2.trans hstep.2.2.2⟩

/-- A filter dropping rows with a given song id leaves no row with that
id, stated on the `all` form used below. -/
theorem all_not_song_of_filter {β : Type} (getSong : β → String) (id : String)
    (l : List β) :
    ((l.filter (fun r => !(getSong r == id))).all (fun r => !(getSong r == id))) = true := by
  apply List.all_eq_true.mpr
  intro r hr
  exact (List.mem_filter.mp hr).2

/-- C5: after `removeSong(id)`, none of the four bridge tables contains a
row whose `song` column equals `id` — the transaction deletes all of them
and the cascade loops only ever delete `albums`/`artists` rows. -/
theorem c5_no_dangling_bridges (db : DB) (id : String) :
    ((removeSongDB db id).1.artists_bridge.all (fun r => !(r.song == id))) = true ∧
    ((removeSongDB db id).1.album_bridge.all (fun r => !(r.song == id))) = true ∧
    ((removeSongDB db id).1.genre_bridge.all (fun r => !(r.song == id))) = true ∧
    ((removeSongDB db id).1.playlist_bridge.all (fun r => !(r.song == id))) = true := by
  unfold removeSongDB
  have h1 := removeAlbumFold_bridges (getCountBySongAlbum db id)
  have h2 := removeArtistFold_bridges (getCountBySongArtist db id)
  refine ⟨?_, ?_, ?_, ?_⟩
  · rw [(h2 _).1, (h1 _).1]
    exact all_not_song_of_filter (·.song) id db.artists_bridge
  · rw [(h2 _).2.1, (h1 _).2.1]
    exact all_not_song_of_filter (·.song) id db.album_bridge
  · rw [(h2 _).2.2.1, (h1 _).2.2.1]
    exact all_not_song_of_filter (·.song) id db.genre_bridge
  · rw [(h2 _).2.2.2, (h1 _).2.2.2]
    exact all_not_song_of_filter (·.song) id db.playlist_bridge

/-! ## C6: which predicate values get wrapped in `%` -/

/-- The inner predicate loop of `populateWhereQuery` appends exactly the
`%`-wrapped values to the argument list. -/
theorem songWhereFold_args (incl : Bool) (tbl : String) :
    ∀ (preds : List (String × String)) (st : String × List String × Bool),
      (preds.foldl (songWhereStep incl tbl) st).2.1 =
        st.2.1 ++ preds.map (fun pr => "%" ++ pr.2 ++ "%") := by
  intro preds
  induction preds with
  | nil => intro st; simp
  | cons pr rest ih =>
    intro st
    rw [List.foldl_cons, ih]
    simp [songWhereStep]

/-- The outer entry loop of `populateWhereQuery` appends the wrapped
values of every entry, in order. -/
theorem songEntriesFold_args (incl : Bool) :
    ∀ (entries : List (String × List (String × String)))
      (st : String × List String × Bool),
      ((entries.foldl
        (fun st kv => kv.2.foldl
          (songWhereStep incl ((getTableByProperty kv.1).getD "undefined")) st)
        st)).2.1 =
        st.2.1 ++ entries.flatMap (fun kv => kv.2.map (fun pr => "%" ++ pr.2 ++ "%")) := by
  intro entries
  induction entries with
  | nil => intro st; simp
  | cons kv rest ih =>
    intro st
    rw [List.foldl_cons, ih, songWhereFold_args]
    simp

/-- The predicate loop of `getEntityByOptions` appends the *raw* values to
the argument list. -/
theorem entityWhereFold_args (incl : Bool) :
    ∀ (preds : List (String × String)) (st : String × List String × Bool),
      (preds.foldl (entityWhereStep incl) st).2.1 = st.2.1 ++ preds.map (·.2) := by
  intro preds
  induction preds with
  | nil => intro st; simp
  | cons pr rest ih =>
    intro st
    rw [List.foldl_cons, ih]
    simp [entityWhereStep]

/-- C6 counterexample: the claim "every filter predicate in both song and
entity queries is wrapped as `%value%`" fails for entity queries: the
argument built for the predicate `album_name = "A"` is the raw string
`"A"`, not `"%A%"`. -/
theorem c6_counterexample_entity_arg_not_wrapped :
    (entityQueryParts ⟨false, "album", .obj [("album_name", "A")]⟩).args = ["A"] ∧
    ("A" : String) ≠ "%A%" := by
  constructor
  · rfl
  · decide

/-- C6 (amended): song-query predicates (`populateWhereQuery`) are wrapped
as `%value%` before the `LIKE` comparison, so they are substring matches;
entity-query predicates (`getEntityByOptions`) pass the caller's *raw*
value to `LIKE`.  Consequently `searchAll(term)` runs a substring probe
`%term%` only against the song path, while its album/artist/genre name
probes use the unwrapped term. -/
theorem c6_like_wrapping_amended :
    (∀ o : SongOptions, (populateWhereQuery (some o)).2 =
      o.entries.flatMap (fun kv => kv.2.map (fun pr => "%" ++ pr.2 ++ "%"))) ∧
    (∀ (incl : Bool) (key tbl : String) (preds : List (String × String)),
      getTableByProperty key = some tbl →
      (entityQueryParts ⟨incl, key, .obj preds⟩).args = preds.map (·.2)) ∧
    (∀ term : String,
      searchAllSongWhere term = ("WHERE  allsongs.path LIKE ?", ["%" ++ term ++ "%"])) ∧
    (∀ term : String,
      (searchAllAlbumParts term).args = [term] ∧
      (searchAllArtistParts term).args = [term] ∧
      (searchAllGenreParts term).args = [term]) := by
  refine ⟨?_, ?_, ?_, ?_⟩
  · intro o
    simp only [populateWhereQuery]
    split
    next h =>
      rw [songEntriesFold_args] at h
      simp only [List.nil_append] at h
      have hlen : (o.entries.flatMap
          (fun kv => kv.2.map (fun pr => "%" ++ pr.2 ++ "%"))).length = 0 := by
        simpa using h
      have hnil := List.eq_nil_of_length_eq_zero hlen
      simp [hnil]
    next h =>
      rw [songEntriesFold_args]
      simp
  · intro incl key tbl preds htbl
    unfold entityQueryParts
    rw [htbl]
    show (⟨some tbl, _, _, preds, _⟩ : EntityParts).args = _
    show (preds.foldl (entityWhereStep incl) ("WHERE ", ([] : List String), true)).2.1 = _
    rw [entityWhereFold_args]
    simp
  · intro term
    rfl
  · intro term
    exact ⟨rfl, rfl, rfl⟩

/-- C6 witness: the amended wrapping theorem applied to the concrete
filter `{artist: {artist_name: "Bob"}}` and to a one-predicate song
filter. -/
theorem c6_like_wrapping_witness :
    (populateWhereQuery (some ⟨[("song", [("title", "love")])], true, none⟩)).2 =
      ["%love%"] ∧
    (entityQueryParts ⟨false, "artist", .obj [("artist_name", "Bob")]⟩).args = ["Bob"] := by
  exact ⟨c6_like_wrapping_amended.1 ⟨[("song", [("title", "love")])], true, none⟩,
    c6_like_wrapping_amended.2.1 false "artist" "artists" [("artist_name", "Bob")] rfl⟩

/-! ## C2: the dedup invariant for artists, genres, albums -/

/-- `storeArtists` on a one-element list is a single resolution step. -/
theorem storeArtists_singleton (n : String) (db : DB) :
    storeArtists [n] db = ([(storeArtistStep db n).1], (storeArtistStep db n).2) := by
  simp [storeArtists]

/-- `storeGenre` on a one-element list is a single resolution step. -/
theorem storeGenre_singleton (n : String) (db : DB) :
    storeGenre (some [n]) db = ([(storeGenreStep db n).1], (storeGenreStep db n).2) := by
  simp [storeGenre]

/-- Artist dedup: two names with the same trimmed case-folding resolve to
the same identifier, the second resolution changes nothing, and the first
adds at most one row (given that no stored artist id is the empty
string). -/
theorem storeArtists_dedup (db : DB) (n1 n2 : String)
    (hids : ∀ r ∈ db.artists, r.artist_id ≠ "")
    (hfold : caseFold (trimS n1) = caseFold (trimS n2)) :
    (storeArtists [n2] (storeArtists [n1] db).2).1 = (storeArtists [n1] db).1 ∧
    (storeArtists [n2] (storeArtists [n1] db).2).2 = (storeArtists [n1] db).2 ∧
    (storeArtists [n1] db).2.artists.length ≤ db.artists.length + 1 := by
  have hpp : ∀ r : ArtistRow,
      (fun r : ArtistRow => nocaseEq r.artist_name (trimS n2)) r =
      (fun r : ArtistRow => nocaseEq r.artist_name (trimS n1)) r := by
    intro r
    exact nocaseEq_congr _ _ _ hfold.symm
  simp only [storeArtists_singleton]
  cases hf : db.artists.find? (fun r => nocaseEq r.artist_name (trimS n1)) with
  | some r =>
    have hrid : r.artist_id ≠ "" := hids r (List.mem_of_find?_eq_some hf)
    have hstep1 : storeArtistStep db n1 = (r.artist_id, db) := by
      simp [storeArtistStep, hf, strTruthy, hrid]
    have hf2 : db.artists.find? (fun r => nocaseEq r.artist_name (trimS n2)) = some r := by
      rw [find?_congr_pred _ _ hpp]
      exact hf
    have hstep2 : storeArtistStep db n2 = (r.artist_id, db) := by
      simp [storeArtistStep, hf2, strTruthy, hrid]
    rw [hstep1]
    dsimp only
    rw [hstep2]
    exact ⟨rfl, rfl, Nat.le_succ _⟩
  | none =>
    have hstep1 : storeArtistStep db n1 =
        (freshId db.fresh,
          { db with artists := db.artists ++ [(⟨freshId db.fresh, trimS n1, none, none⟩ : ArtistRow)],
                    fresh := db.fresh + 1 }) := by
      simp [storeArtistStep, hf, strTruthy]
    rw [hstep1]
    have hf2 : (db.artists ++ [(⟨freshId db.fresh, trimS n1, none, none⟩ : ArtistRow)]).find?
        (fun r => nocaseEq r.artist_name (trimS n2)) =
        some (⟨freshId db.fresh, trimS n1, none, none⟩ : ArtistRow) := by
      rw [find?_congr_pred _ _ hpp, List.find?_append, hf]
      simp [nocaseEq_refl]
    have hstep2 : storeArtistStep
        { db with artists := db.artists ++ [(⟨freshId db.fresh, trimS n1, none, none⟩ : ArtistRow)],
                  fresh := db.fresh + 1 } n2 =
        (freshId db.fresh,
          { db with artists := db.artists ++ [(⟨freshId db.fresh, trimS n1, none, none⟩ : ArtistRow)],
                    fresh := db.fresh + 1 }) := by
      simp [storeArtistStep, hf2, strTruthy, freshId_ne_empty]
    dsimp only
    rw [hstep2]
    refine ⟨rfl, rfl, ?_⟩
    simp

/-- Genre dedup: two names with the same case-folding (no trimming — the
genre resolver never trims) resolve to the same identifier and the second
resolution changes nothing. -/
theorem storeGenre_dedup (db : DB) (n1 n2 : String)
    (hids : ∀ r ∈ db.genre, r.genre_id ≠ "")
    (hfold : caseFold n1 = caseFold n2) :
    (storeGenre (some [n2]) (storeGenre (some [n1]) db).2).1 =
      (storeGenre (some [n1]) db).1 ∧
    (storeGenre (some [n2]) (storeGenre (some [n1]) db).2).2 =
      (storeGenre (some [n1]) db).2 ∧
    (storeGenre (some [n1]) db).2.genre.length ≤ db.genre.length + 1 := by
  have hpp : ∀ r : GenreRow,
      (fun r : GenreRow => nocaseEq r.genre_name n2) r =
      (fun r : GenreRow => nocaseEq r.genre_name n1) r := by
    intro r
    exact nocaseEq_congr _ _ _ hfold.symm
  simp only [storeGenre_singleton]
  cases hf : db.genre.find? (fun r => nocaseEq r.genre_name n1) with
  | some r =>
    have hrid : r.genre_id ≠ "" := hids r (List.mem_of_find?_eq_some hf)
    have hstep1 : storeGenreStep db n1 = (r.genre_id, db) := by
      simp [storeGenreStep, hf, strTruthy, hrid]
    have hf2 : db.genre.find? (fun r => nocaseEq r.genre_name n2) = some r := by
      rw [find?_congr_pred _ _ hpp]
      exact hf
    have hstep2 : storeGenreStep db n2 = (r.genre_id, db) := by
      simp [storeGenreStep, hf2, strTruthy, hrid]
    rw [hstep1]
    dsimp only
    rw [hstep2]
    exact ⟨rfl, rfl, Nat.le_succ _⟩
  | none =>
    have hstep1 : storeGenreStep db n1 =
        (freshId db.fresh,
          { db with genre := db.genre ++ [(⟨freshId db.fresh, n1, none⟩ : GenreRow)],
                    fresh := db.fresh + 1 }) := by
      simp [storeGenreStep, hf, strTruthy]
    rw [hstep1]
    have hf2 : (db.genre ++ [(⟨freshId db.fresh, n1, none⟩ : GenreRow)]).find?
        (fun r => nocaseEq r.genre_name n2) = some (⟨freshId db.fresh, n1, none⟩ : GenreRow) := by
      rw [find?_congr_pred _ _ hpp, List.find?_append, hf]
      simp [nocaseEq_refl]
    have hstep2 : storeGenreStep
        { db with genre := db.genre ++ [(⟨freshId db.fresh, n1, none⟩ : GenreRow)],
                  fresh := db.fresh + 1 } n2 =
        (freshId db.fresh,
          { db with genre := db.genre ++ [(⟨freshId db.fresh, n1, none⟩ : GenreRow)],
                    fresh := db.fresh + 1 }) := by
      simp [storeGenreStep, hf2, strTruthy, freshId_ne_empty]
    dsimp only
    rw [hstep2]
    refine ⟨rfl, rfl, ?_⟩
    simp

/-- A list of length at most one has all its members equal. -/
theorem mem_eq_of_length_le_one {α : Type} (m : List α) (hm : m.length ≤ 1)
    (x r : α) (hx : x ∈ m) (hr : r ∈ m) : x = r := by
  match m, hm with
  | [], _ => cases hx
  | [a], _ =>
    rw [List.mem_singleton] at hx hr
    rw [hx, hr]

/-- When a predicate holds for at most one `albums` row and `find?`
returned `r`, no row other than those sharing `r`'s id satisfies it. -/
theorem album_filter_no_match (l : List AlbumRow) (p : AlbumRow → Bool) (r : AlbumRow)
    (hcount : l.countP p ≤ 1) (hfind : l.find? p = some r) :
    ∀ x ∈ l.filter (fun x => !(x.album_id == r.album_id)), p x = false := by
  intro x hx
  rcases List.mem_filter.mp hx with ⟨hxl, hxid⟩
  cases hp : p x with
  | false => rfl
  | true =>
    exfalso
    have hr := List.mem_of_find?_eq_some hfind
    have hpr := List.find?_some hfind
    have hxmem : x ∈ l.filter p := List.mem_filter.mpr ⟨hxl, hp⟩
    have hrmem : r ∈ l.filter p := List.mem_filter.mpr ⟨hr, hpr⟩
    have hlen : (l.filter p).length ≤ 1 := by
      rw [← List.countP_eq_length_filter]
      exact hcount
    have hxr : x = r := mem_eq_of_length_le_one _ hlen x r hxmem hrmem
    rw [hxr] at hxid
    simp at hxid

/-- Album dedup (amended form): two *trimmed* names with the same
case-folding resolve to the same identifier, provided the albums table
holds at most one case-insensitive match, stores no empty and no
generated-shape identifiers; the second store replaces the row in place,
adding none. -/
theorem storeAlbum_dedup (db : DB) (a1 a2 : AlbumDoc) (n1 n2 : String)
    (h1 : a1.album_name = some n1) (h2 : a2.album_name = some n2)
    (hne1 : n1 ≠ "") (hne2 : n2 ≠ "")
    (ht1 : trimS n1 = n1) (ht2 : trimS n2 = n2)
    (hfold : caseFold n1 = caseFold n2)
    (hids : ∀ r ∈ db.albums, r.album_id ≠ "")
    (hcount : db.albums.countP (fun r => nocaseEq r.album_name (trimS n1)) ≤ 1)
    (hfreshfree : ∀ r ∈ db.albums, ∀ m : Nat, r.album_id ≠ freshId m) :
    (storeAlbum a2 (storeAlbum a1 db).2).1 = (storeAlbum a1 db).1 ∧
    (storeAlbum a2 (storeAlbum a1 db).2).2.albums.length =
      (storeAlbum a1 db).2.albums.length ∧
    (storeAlbum a1 db).2.albums.length ≤ db.albums.length + 1 := by
  have hpp : ∀ r : AlbumRow,
      nocaseEq r.album_name (trimS n2) = nocaseEq r.album_name (trimS n1) := by
    intro r
    apply nocaseEq_congr
    rw [ht1, ht2]
    exact hfold.symm
  have hnewmatch : nocaseEq n1 (trimS n2) = true := by
    rw [ht2]
    simp [nocaseEq, hfold]
  cases hf : db.albums.find? (fun r => nocaseEq r.album_name (trimS n1)) with
  | some r =>
    have hrid : r.album_id ≠ "" := hids r (List.mem_of_find?_eq_some hf)
    have hstep1 : storeAlbum a1 db = (r.album_id,
        { db with
            albums := db.albums.filter (fun x => !(x.album_id == r.album_id)) ++
              [⟨r.album_id, n1, a1.album_coverPath_low, a1.album_coverPath_high,
                a1.album_artist, none⟩] }) := by
      simp [storeAlbum, h1, hne1, hf, strTruthy, hrid]
    have hnomatch := album_filter_no_match db.albums
      (fun r => nocaseEq r.album_name (trimS n1)) r hcount hf
    have hfindF : (db.albums.filter (fun x => !(x.album_id == r.album_id))).find?
        (fun x => nocaseEq x.album_name (trimS n2)) = none := by
      apply List.find?_eq_none.mpr
      intro x hx
      have hnm := hnomatch x hx
      simp only [] at hnm
      simp [hpp x, hnm]
    have hf2 : ((db.albums.filter (fun x => !(x.album_id == r.album_id))) ++
        [(⟨r.album_id, n1, a1.album_coverPath_low, a1.album_coverPath_high,
          a1.album_artist, none⟩ : AlbumRow)]).find?
        (fun x => nocaseEq x.album_name (trimS n2)) =
        some ⟨r.album_id, n1, a1.album_coverPath_low, a1.album_coverPath_high,
          a1.album_artist, none⟩ := by
      rw [List.find?_append, hfindF]
      simp [hnewmatch]
    have hstep2 : storeAlbum a2 (storeAlbum a1 db).2 = (r.album_id,
        { db with
            albums := (((db.albums.filter (fun x => !(x.album_id == r.album_id))) ++
                [(⟨r.album_id, n1, a1.album_coverPath_low, a1.album_coverPath_high,
                  a1.album_artist, none⟩ : AlbumRow)]).filter
                    (fun x => !(x.album_id == r.album_id))) ++
              [⟨r.album_id, n2, a2.album_coverPath_low, a2.album_coverPath_high,
                a2.album_artist, none⟩] }) := by
      rw [hstep1]
      simp [storeAlbum, h2, hne2, hf2, strTruthy, hrid]
    have hreflt : ((db.albums.filter (fun x => !(x.album_id == r.album_id))) ++
        [(⟨r.album_id, n1, a1.album_coverPath_low, a1.album_coverPath_high,
          a1.album_artist, none⟩ : AlbumRow)]).filter
            (fun x => !(x.album_id == r.album_id)) =
        db.albums.filter (fun x => !(x.album_id == r.album_id)) := by
      rw [List.filter_append]
      have hFF : (db.albums.filter (fun x => !(x.album_id == r.album_id))).filter
          (fun x => !(x.album_id == r.album_id)) =
          db.albums.filter (fun x => !(x.album_id == r.album_id)) := by
        apply List.filter_eq_self.mpr
        intro x hx
        exact (List.mem_filter.mp hx).2
      rw [hFF]
      simp
    rw [hstep2, hstep1]
    refine ⟨rfl, ?_, ?_⟩
    · dsimp only
      rw [hreflt]
      simp
    · dsimp only
      have hle := List.length_filter_le (fun x : AlbumRow => !(x.album_id == r.album_id))
        db.albums
      simp only [List.length_append, List.length_singleton]
      omega
  | none =>
    have hkeep : ∀ m : Nat, db.albums.filter (fun x => !(x.album_id == freshId m)) =
        db.albums := by
      intro m
      apply List.filter_eq_self.mpr
      intro x hx
      simp [hfreshfree x hx m]
    have hstep1 : storeAlbum a1 db = (freshId db.fresh,
        { db with
            albums := db.albums ++
              [⟨freshId db.fresh, n1, a1.album_coverPath_low, a1.album_coverPath_high,
                a1.album_artist, none⟩],
            fresh := db.fresh + 1 }) := by
      simp [storeAlbum, h1, hne1, hf, strTruthy, hkeep]
    have hfindF : db.albums.find? (fun x => nocaseEq x.album_name (trimS n2)) = none := by
      rw [find?_congr_pred _ _ hpp]
      exact hf
    have hf2 : (db.albums ++
        [(⟨freshId db.fresh, n1, a1.album_coverPath_low, a1.album_coverPath_high,
          a1.album_artist, none⟩ : AlbumRow)]).find?
        (fun x => nocaseEq x.album_name (trimS n2)) =
        some ⟨freshId db.fresh, n1, a1.album_coverPath_low, a1.album_coverPath_high,
          a1.album_artist, none⟩ := by
      rw [List.find?_append, hfindF]
      simp [hnewmatch]
    have hstep2 : storeAlbum a2 (storeAlbum a1 db).2 = (freshId db.fresh,
        { db with
            albums := ((db.albums ++
                [(⟨freshId db.fresh, n1, a1.album_coverPath_low, a1.album_coverPath_high,
                  a1.album_artist, none⟩ : AlbumRow)]).filter
                    (fun x => !(x.album_id == freshId db.fresh))) ++
              [⟨freshId db.fresh, n2, a2.album_coverPath_low, a2.album_coverPath_high,
                a2.album_artist, none⟩],
            fresh := db.fresh + 1 }) := by
      rw [hstep1]
      simp [storeAlbum, h2, hne2, hf2, strTruthy, freshId_ne_empty]
    have hreflt : (db.albums ++
        [(⟨freshId db.fresh, n1, a1.album_coverPath_low, a1.album_coverPath_high,
          a1.album_artist, none⟩ : AlbumRow)]).filter
            (fun x => !(x.album_id == freshId db.fresh)) = db.albums := by
      rw [List.filter_append, hkeep]
      simp
    rw [hstep2, hstep1]
    refine ⟨rfl, ?_, ?_⟩
    · dsimp only
      rw [hreflt]
      simp
    · dsimp only
      simp

/-- C2 counterexample: the claim "names equal after trimming and
case-folding resolve to the same identifier, for each of the three
categories" fails for genres, whose resolver never trims: `" a "` and
`"a"` are equal after trim + case-fold, yet the second call misses the
stored row, mints a second identifier and leaves two genre rows. -/
theorem c2_counterexample_genre_trim :
    caseFold (trimS " a ") = caseFold (trimS "a") ∧
    (storeGenre (some ["a"]) (storeGenre (some [" a "]) DB.empty).2).1 ≠
      (storeGenre (some [" a "]) DB.empty).1 ∧
    (storeGenre (some ["a"]) (storeGenre (some [" a "]) DB.empty).2).2.genre.length = 2 := by
  exact ⟨by decide, by decide, by decide⟩

/-- C2 (amended): the dedup guarantee by category.  *Artists*: names equal
after trim + case-fold always resolve to the same identifier, the second
resolution is a no-op, and at most one row is created — assuming no stored
artist id is the empty string.  *Genres*: the same holds only for names
equal after case-fold *without* trimming (the genre resolver never trims).
*Albums*: the same identifier is returned and no second row created only
when both names are already trimmed (the album lookup trims its probe but
the row stores the untrimmed name), the table holds at most one
case-insensitive match, and ids are non-empty and do not collide with
generated ones. -/
theorem c2_dedup_amended :
    (∀ (db : DB) (n1 n2 : String), (∀ r ∈ db.artists, r.artist_id ≠ "") →
      caseFold (trimS n1) = caseFold (trimS n2) →
      (storeArtists [n2] (storeArtists [n1] db).2).1 = (storeArtists [n1] db).1 ∧
      (storeArtists [n2] (storeArtists [n1] db).2).2 = (storeArtists [n1] db).2 ∧
      (storeArtists [n1] db).2.artists.length ≤ db.artists.length + 1) ∧
    (∀ (db : DB) (n1 n2 : String), (∀ r ∈ db.genre, r.genre_id ≠ "") →
      caseFold n1 = caseFold n2 →
      (storeGenre (some [n2]) (storeGenre (some [n1]) db).2).1 =
        (storeGenre (some [n1]) db).1 ∧
      (storeGenre (some [n2]) (storeGenre (some [n1]) db).2).2 =
        (storeGenre (some [n1]) db).2 ∧
      (storeGenre (some [n1]) db).2.genre.length ≤ db.genre.length + 1) ∧
    (∀ (db : DB) (a1 a2 : AlbumDoc) (n1 n2 : String),
      a1.album_name = some n1 → a2.album_name = some n2 →
      n1 ≠ "" → n2 ≠ "" → trimS n1 = n1 → trimS n2 = n2 →
      caseFold n1 = caseFold n2 →
      (∀ r ∈ db.albums, r.album_id ≠ "") →
      db.albums.countP (fun r => nocaseEq r.album_name (trimS n1)) ≤ 1 →
      (∀ r ∈ db.albums, ∀ m : Nat, r.album_id ≠ freshId m) →
      (storeAlbum a2 (storeAlbum a1 db).2).1 = (storeAlbum a1 db).1 ∧
      (storeAlbum a2 (storeAlbum a1 db).2).2.albums.length =
        (storeAlbum a1 db).2.albums.length ∧
      (storeAlbum a1 db).2.albums.length ≤ db.albums.length + 1) := by
  refine ⟨storeArtists_dedup, storeGenre_dedup, ?_⟩
  intro db a1 a2 n1 n2 h1 h2 hne1 hne2 ht1 ht2 hfold hids hcount hfresh
  exact storeAlbum_dedup db a1 a2 n1 n2 h1 h2 hne1 hne2 ht1 ht2 hfold hids hcount hfresh

/-- C2 witness: the amended dedup theorem applied at concrete names for
each category: artists `" Daft Punk "`/`"daft punk"`, genres
`"Rock"`/`"rock"`, albums `"Alb"`/`"ALB"`, all starting from the empty
database. -/
theorem c2_dedup_witness :
    (storeArtists ["daft punk"] (storeArtists [" Daft Punk "] DB.empty).2).1 =
      (storeArtists [" Daft Punk "] DB.empty).1 ∧
    (storeGenre (some ["rock"]) (storeGenre (some ["Rock"]) DB.empty).2).1 =
      (storeGenre (some ["Rock"]) DB.empty).1 ∧
    (storeAlbum ⟨some "ALB", some "c", none, none⟩
        (storeAlbum ⟨some "Alb", none, none, none⟩ DB.empty).2).1 =
      (storeAlbum ⟨some "Alb", none, none, none⟩ DB.empty).1 := by
  refine ⟨?_, ?_, ?_⟩
  · exact (c2_dedup_amended.1 DB.empty " Daft Punk " "daft punk"
      (fun r hr => absurd hr (List.not_mem_nil r)) (by decide)).1
  · exact (c2_dedup_amended.2.1 DB.empty "Rock" "rock"
      (fun r hr => absurd hr (List.not_mem_nil r)) (by decide)).1
  · exact (c2_dedup_amended.2.2 DB.empty ⟨some "Alb", none, none, none⟩
      ⟨some "ALB", some "c", none, none⟩ "Alb" "ALB" rfl rfl (by decide) (by decide)
      (by decide) (by decide) (by decide)
      (fun r hr => absurd hr (List.not_mem_nil r)) (by decide)
      (fun r hr => absurd hr (List.not_mem_nil r))).1

/-! ## C3: idempotence of `store` -/

/-- Accumulator shape of the resolver folds: the identifier list is a
prefix-append, the state thread is independent of it. -/
theorem foldlStep_acc {σ : Type} (g : σ → String → String × σ) :
    ∀ (as : List String) (ids : List String) (st : σ),
      as.foldl (fun acc a => (acc.1 ++ [(g acc.2 a).1], (g acc.2 a).2)) (ids, st) =
        (ids ++ (as.foldl
          (fun acc a => (acc.1 ++ [(g acc.2 a).1], (g acc.2 a).2)) ([], st)).1,
         (as.foldl
          (fun acc a => (acc.1 ++ [(g acc.2 a).1], (g acc.2 a).2)) ([], st)).2) := by
  intro as
  induction as with
  | nil => intro ids st; simp
  | cons a rest ih =>
    intro ids st
    rw [List.foldl_cons, List.foldl_cons]
    rw [ih (ids ++ [(g st a).1]) (g st a).2, ih ([] ++ [(g st a).1]) (g st a).2]
    simp

/-- Unfolding one resolution step of `storeArtists`. -/
theorem storeArtists_cons (a : String) (rest : List String) (db : DB) :
    storeArtists (a :: rest) db =
      ((storeArtistStep db a).1 :: (storeArtists rest (storeArtistStep db a).2).1,
       (storeArtists rest (storeArtistStep db a).2).2) := by
  show (a :: rest).foldl _ ([], db) = _
  rw [List.foldl_cons]
  rw [foldlStep_acc storeArtistStep rest ([] ++ [(storeArtistStep db a).1])
    (storeArtistStep db a).2]
  simp [storeArtists]

/-- Unfolding one resolution step of `storeGenre`. -/
theorem storeGenre_cons (a : String) (rest : List String) (db : DB) :
    storeGenre (some (a :: rest)) db =
      ((storeGenreStep db a).1 :: (storeGenre (some rest) (storeGenreStep db a).2).1,
       (storeGenre (some rest) (storeGenreStep db a).2).2) := by
  show (a :: rest).foldl _ ([], db) = _
  rw [List.foldl_cons]
  rw [foldlStep_acc storeGenreStep rest ([] ++ [(storeGenreStep db a).1])
    (storeGenreStep db a).2]
  simp [storeGenre]

/-- One artist resolution step touches only the `artists` table and the
freshness counter. -/
theorem storeArtistStep_frame (db : DB) (a : String) :
    (storeArtistStep db a).2.allsongs = db.allsongs ∧
    (storeArtistStep db a).2.albums = db.albums ∧
    (storeArtistStep db a).2.genre = db.genre ∧
    (storeArtistStep db a).2.playlists = db.playlists ∧
    (storeArtistStep db a).2.artists_bridge = db.artists_bridge ∧
    (storeArtistStep db a).2.album_bridge = db.album_bridge ∧
    (storeArtistStep db a).2.genre_bridge = db.genre_bridge ∧
    (storeArtistStep db a).2.playlist_bridge = db.playlist_bridge := by
  cases hst : strTruthy ((db.artists.find?
      (fun r => nocaseEq r.artist_name (trimS a))).map (·.artist_id)) <;>
    simp [storeArtistStep, hst]

/-- `storeArtists` touches only the `artists` table and the freshness
counter. -/
theorem storeArtists_frame :
    ∀ (as : List String) (db : DB),
    (storeArtists as db).2.allsongs = db.allsongs ∧
    (storeArtists as db).2.albums = db.albums ∧
    (storeArtists as db).2.genre = db.genre ∧
    (storeArtists as db).2.playlists = db.playlists ∧
    (storeArtists as db).2.artists_bridge = db.artists_bridge ∧
    (storeArtists as db).2.album_bridge = db.album_bridge ∧
    (storeArtists as db).2.genre_bridge = db.genre_bridge ∧
    (storeArtists as db).2.playlist_bridge = db.playlist_bridge := by
  intro as
  induction as with
  | nil =>
    intro db
    exact ⟨rfl, rfl, rfl, rfl, rfl, rfl, rfl, rfl⟩
  | cons a rest ih =>
    intro db
    rw [storeArtists_cons]
    have h1 := storeArtistStep_frame db a
    have h2 := ih (storeArtistStep db a).2
    exact ⟨h2.1.trans h1.1, h2.2.1.trans h1.2.1, h2.2.2.1.trans h1.2.2.1,
      h2.2.2.2.1.trans h1.2.2.2.1, h2.2.2.2.2.1.trans h1.2.2.2.2.1,
      h2.2.2.2.2.2.1.trans h1.2.2.2.2.2.1, h2.2.2.2.2.2.2.1.trans h1.2.2.2.2.2.2.1,
      h2.2.2.2.2.2.2.2.trans h1.2.2.2.2.2.2.2⟩

/-- One genre resolution step touches only the `genre` table and the
freshness counter. -/
theorem storeGenreStep_frame (db : DB) (a : String) :
    (storeGenreStep db a).2.allsongs = db.allsongs ∧
    (storeGenreStep db a).2.artists = db.artists ∧
    (storeGenreStep db a).2.albums = db.albums ∧
    (storeGenreStep db a).2.playlists = db.playlists ∧
    (storeGenreStep db a).2.artists_bridge = db.artists_bridge ∧
    (storeGenreStep db a).2.album_bridge = db.album_bridge ∧
    (storeGenreStep db a).2.genre_bridge = db.genre_bridge ∧
    (storeGenreStep db a).2.playlist_bridge = db.playlist_bridge := by
  cases hst : strTruthy ((db.genre.find?
      (fun r => nocaseEq r.genre_name a)).map (·.genre_id)) <;>
    simp [storeGenreStep, hst]

/-- `storeGenre` touches only the `genre` table and the freshness
counter. -/
theorem storeGenre_frame :
    ∀ (gs : Option (List String)) (db : DB),
    (storeGenre gs db).2.allsongs = db.allsongs ∧
    (storeGenre gs db).2.artists = db.artists ∧
    (storeGenre gs db).2.albums = db.albums ∧
    (storeGenre gs db).2.playlists = db.playlists ∧
    (storeGenre gs db).2.artists_bridge = db.artists_bridge ∧
    (storeGenre gs db).2.album_bridge = db.album_bridge ∧
    (storeGenre gs db).2.genre_bridge = db.genre_bridge ∧
    (storeGenre gs db).2.playlist_bridge = db.playlist_bridge := by
  intro gs
  cases gs with
  | none =>
    intro db
    exact ⟨rfl, rfl, rfl, rfl, rfl, rfl, rfl, rfl⟩
  | some l =>
    induction l with
    | nil =>
      intro db
      exact ⟨rfl, rfl, rfl, rfl, rfl, rfl, rfl, rfl⟩
    | cons a rest ih =>
      intro db
      rw [storeGenre_cons]
      have h1 := storeGenreStep_frame db a
      have h2 := ih (storeGenreStep db a).2
      exact ⟨h2.1.trans h1.1, h2.2.1.trans h1.2.1, h2.2.2.1.trans h1.2.2.1,
        h2.2.2.2.1.trans h1.2.2.2.1, h2.2.2.2.2.1.trans h1.2.2.2.2.1,
        h2.2.2.2.2.2.1.trans h1.2.2.2.2.2.1, h2.2.2.2.2.2.2.1.trans h1.2.2.2.2.2.2.1,
        h2.2.2.2.2.2.2.2.trans h1.2.2.2.2.2.2.2⟩

/-- `storeAlbum` touches only the `albums` table and the freshness
counter. -/
theorem storeAlbum_frame (a : AlbumDoc) (db : DB) :
    (storeAlbum a db).2.allsongs = db.allsongs ∧
    (storeAlbum a db).2.artists = db.artists ∧
    (storeAlbum a db).2.genre = db.genre ∧
    (storeAlbum a db).2.playlists = db.playlists ∧
    (storeAlbum a db).2.artists_bridge = db.artists_bridge ∧
    (storeAlbum a db).2.album_bridge = db.album_bridge ∧
    (storeAlbum a db).2.genre_bridge = db.genre_bridge ∧
    (storeAlbum a db).2.playlist_bridge = db.playlist_bridge := by
  cases hname : a.album_name with
  | none => simp [storeAlbum, hname]
  | some n =>
    by_cases hn : n = ""
    · simp [storeAlbum, hname, hn]
    · cases hst : strTruthy ((db.albums.find?
          (fun r => nocaseEq r.album_name (trimS n))).map (·.album_id)) <;>
        simp [storeAlbum, hname, hn, hst]

/-- After `storeArtists`, the artists table is the old one plus appended
rows with non-empty ids, and every resolved name now has a truthy
first match. -/
theorem storeArtists_establish :
    ∀ (as : List String) (db : DB),
      (∀ r ∈ db.artists, r.artist_id ≠ "") →
      (∃ tail, (storeArtists as db).2.artists = db.artists ++ tail ∧
        (∀ r ∈ tail, r.artist_id ≠ "")) ∧
      (∀ a ∈ as, ∃ r, (storeArtists as db).2.artists.find?
        (fun x => nocaseEq x.artist_name (trimS a)) = some r ∧ r.artist_id ≠ "") := by
  intro as
  induction as with
  | nil =>
    intro db hids
    refine ⟨⟨[], by simp [storeArtists], by intro r hr; cases hr⟩, ?_⟩
    intro a ha
    cases ha
  | cons a rest ih =>
    intro db hids
    rw [storeArtists_cons]
    cases hf : db.artists.find? (fun x => nocaseEq x.artist_name (trimS a)) with
    | some r =>
      have hrid : r.artist_id ≠ "" := hids r (List.mem_of_find?_eq_some hf)
      have hstep : storeArtistStep db a = (r.artist_id, db) := by
        simp [storeArtistStep, hf, strTruthy, hrid]
      rw [hstep]
      dsimp only
      obtain ⟨⟨tail, htail, htids⟩, hres⟩ := ih db hids
      refine ⟨⟨tail, htail, htids⟩, ?_⟩
      intro x hx
      rcases List.mem_cons.mp hx with hx1 | hx2
      · subst hx1
        refine ⟨r, ?_, hrid⟩
        rw [htail, List.find?_append, hf]
        rfl
      · exact hres x hx2
    | none =>
      have hstep : storeArtistStep db a =
          (freshId db.fresh,
            { db with
                artists := db.artists ++
                  [⟨freshId db.fresh, trimS a, none, none⟩],
                fresh := db.fresh + 1 }) := by
        simp [storeArtistStep, hf, strTruthy]
      rw [hstep]
      dsimp only
      have hids2 : ∀ r ∈ (db.artists ++
          [(⟨freshId db.fresh, trimS a, none, none⟩ : ArtistRow)]), r.artist_id ≠ "" := by
        intro r hr
        rcases List.mem_append.mp hr with h | h
        · exact hids r h
        · rw [List.mem_singleton.mp h]
          exact freshId_ne_empty db.fresh
      obtain ⟨⟨tail, htail, htids⟩, hres⟩ :=
        ih { db with
              artists := db.artists ++ [⟨freshId db.fresh, trimS a, none, none⟩],
              fresh := db.fresh + 1 } hids2
      refine ⟨⟨[(⟨freshId db.fresh, trimS a, none, none⟩ : ArtistRow)] ++ tail, ?_, ?_⟩, ?_⟩
      · rw [htail]
        simp
      · intro r hr
        rcases List.mem_append.mp hr with h | h
        · rw [List.mem_singleton.mp h]
          exact freshId_ne_empty db.fresh
        · exact htids r h
      · intro x hx
        rcases List.mem_cons.mp hx with hx1 | hx2
        · subst hx1
          refine ⟨⟨freshId db.fresh, trimS x, none, none⟩, ?_, freshId_ne_empty db.fresh⟩
          rw [htail]
          dsimp only
          rw [List.append_assoc, List.find?_append, hf]
          rw [List.find?_append]
          have hmatch : (List.find? (fun r => nocaseEq r.artist_name (trimS x))
              [(⟨freshId db.fresh, trimS x, none, none⟩ : ArtistRow)]) =
              some ⟨freshId db.fresh, trimS x, none, none⟩ := by
            simp [List.find?, nocaseEq_refl]
          rw [hmatch]
          rfl
        · exact hres x hx2

/-- When every name already has a truthy first match, `storeArtists`
leaves the state untouched. -/
theorem storeArtists_noop :
    ∀ (as : List String) (X : DB),
      (∀ a ∈ as, ∃ r, X.artists.find?
        (fun x => nocaseEq x.artist_name (trimS a)) = some r ∧ r.artist_id ≠ "") →
      (storeArtists as X).2 = X := by
  intro as
  induction as with
  | nil =>
    intro X _
    rfl
  | cons a rest ih =>
    intro X h
    rw [storeArtists_cons]
    obtain ⟨r, hf, hrid⟩ := h a (List.mem_cons_self a rest)
    have hstep : storeArtistStep X a = (r.artist_id, X) := by
      simp [storeArtistStep, hf, strTruthy, hrid]
    rw [hstep]
    dsimp only
    exact ih X (fun x hx => h x (List.mem_cons_of_mem a hx))

/-- After `storeGenre`, the genre table is the old one plus appended rows
with non-empty ids, and every resolved (untrimmed) name now has a truthy
first match. -/
theorem storeGenre_establish :
    ∀ (gs : List String) (db : DB),
      (∀ r ∈ db.genre, r.genre_id ≠ "") →
      (∃ tail, (storeGenre (some gs) db).2.genre = db.genre ++ tail ∧
        (∀ r ∈ tail, r.genre_id ≠ "")) ∧
      (∀ a ∈ gs, ∃ r, (storeGenre (some gs) db).2.genre.find?
        (fun x => nocaseEq x.genre_name a) = some r ∧ r.genre_id ≠ "") := by
  intro gs
  induction gs with
  | nil =>
    intro db hids
    refine ⟨⟨[], by simp [storeGenre], by intro r hr; cases hr⟩, ?_⟩
    intro a ha
    cases ha
  | cons a rest ih =>
    intro db hids
    rw [storeGenre_cons]
    cases hf : db.genre.find? (fun x => nocaseEq x.genre_name a) with
    | some r =>
      have hrid : r.genre_id ≠ "" := hids r (List.mem_of_find?_eq_some hf)
      have hstep : storeGenreStep db a = (r.genre_id, db) := by
        simp [storeGenreStep, hf, strTruthy, hrid]
      rw [hstep]
      dsimp only
      obtain ⟨⟨tail, htail, htids⟩, hres⟩ := ih db hids
      refine ⟨⟨tail, htail, htids⟩, ?_⟩
      intro x hx
      rcases List.mem_cons.mp hx with hx1 | hx2
      · subst hx1
        refine ⟨r, ?_, hrid⟩
        rw [htail, List.find?_append, hf]
        rfl
      · exact hres x hx2
    | none =>
      have hstep : storeGenreStep db a =
          (freshId db.fresh,
            { db with
                genre := db.genre ++ [⟨freshId db.fresh, a, none⟩],
                fresh := db.fresh + 1 }) := by
        simp [storeGenreStep, hf, strTruthy]
      rw [hstep]
      dsimp only
      have hids2 : ∀ r ∈ (db.genre ++
          [(⟨freshId db.fresh, a, none⟩ : GenreRow)]), r.genre_id ≠ "" := by
        intro r hr
        rcases List.mem_append.mp hr with h | h
        · exact hids r h
        · rw [List.mem_singleton.mp h]
          exact freshId_ne_empty db.fresh
      obtain ⟨⟨tail, htail, htids⟩, hres⟩ :=
        ih { db with
              genre := db.genre ++ [⟨freshId db.fresh, a, none⟩],
              fresh := db.fresh + 1 } hids2
      refine ⟨⟨[(⟨freshId db.fresh, a, none⟩ : GenreRow)] ++ tail, ?_, ?_⟩, ?_⟩
      · rw [htail]
        simp
      · intro r hr
        rcases List.mem_append.mp hr with h | h
        · rw [List.mem_singleton.mp h]
          exact freshId_ne_empty db.fresh
        · exact htids r h
      · intro x hx
        rcases List.mem_cons.mp hx with hx1 | hx2
        · subst hx1
          refine ⟨⟨freshId db.fresh, x, none⟩, ?_, freshId_ne_empty db.fresh⟩
          rw [htail]
          dsimp only
          rw [List.append_assoc, List.find?_append, hf]
          rw [List.find?_append]
          have hmatch : (List.find? (fun r => nocaseEq r.genre_name x)
              [(⟨freshId db.fresh, x, none⟩ : GenreRow)]) =
              some ⟨freshId db.fresh, x, none⟩ := by
            simp [List.find?, nocaseEq_refl]
          rw [hmatch]
          rfl
        · exact hres x hx2

/-- When every name already has a truthy first match, `storeGenre`
leaves the state untouched. -/
theorem storeGenre_noop :
    ∀ (gs : List String) (X : DB),
      (∀ a ∈ gs, ∃ r, X.genre.find?
        (fun x => nocaseEq x.genre_name a) = some r ∧ r.genre_id ≠ "") →
      (storeGenre (some gs) X).2 = X := by
  intro gs
  induction gs with
  | nil =>
    intro X _
    rfl
  | cons a rest ih =>
    intro X h
    rw [storeGenre_cons]
    obtain ⟨r, hf, hrid⟩ := h a (List.mem_cons_self a rest)
    have hstep : storeGenreStep X a = (r.genre_id, X) := by
      simp [storeGenreStep, hf, strTruthy, hrid]
    rw [hstep]
    dsimp only
    exact ih X (fun x hx => h x (List.mem_cons_of_mem a hx))

/-- A second `storeAlbum` of the same document is a no-op on any state
whose albums table equals the one the first call produced, provided the
name is trimmed, the original table had at most one case-insensitive
match, and ids are non-empty and collision-free with generated ones. -/
theorem storeAlbum_second_noop (a : AlbumDoc) (db X : DB) (n : String)
    (h1 : a.album_name = some n) (hne : n ≠ "") (ht : trimS n = n)
    (hids : ∀ r ∈ db.albums, r.album_id ≠ "")
    (hcount : db.albums.countP (fun r => nocaseEq r.album_name (trimS n)) ≤ 1)
    (hfreshfree : ∀ r ∈ db.albums, ∀ m : Nat, r.album_id ≠ freshId m)
    (hX : X.albums = (storeAlbum a db).2.albums) :
    storeAlbum a X = ((storeAlbum a db).1, X) := by
  have hself : nocaseEq n (trimS n) = true := by
    rw [ht]
    exact nocaseEq_refl n
  cases hf : db.albums.find? (fun r => nocaseEq r.album_name (trimS n)) with
  | some r =>
    have hrid : r.album_id ≠ "" := hids r (List.mem_of_find?_eq_some hf)
    have hstep1 : storeAlbum a db = (r.album_id,
        { db with
            albums := db.albums.filter (fun x => !(x.album_id == r.album_id)) ++
              [⟨r.album_id, n, a.album_coverPath_low, a.album_coverPath_high,
                a.album_artist, none⟩] }) := by
      simp [storeAlbum, h1, hne, hf, strTruthy, hrid]
    have hXalb : X.albums =
        db.albums.filter (fun x => !(x.album_id == r.album_id)) ++
          [⟨r.album_id, n, a.album_coverPath_low, a.album_coverPath_high,
            a.album_artist, none⟩] := by
      rw [hX, hstep1]
    have hnomatch := album_filter_no_match db.albums
      (fun r => nocaseEq r.album_name (trimS n)) r hcount hf
    have hfindF : (db.albums.filter (fun x => !(x.album_id == r.album_id))).find?
        (fun x => nocaseEq x.album_name (trimS n)) = none := by
      apply List.find?_eq_none.mpr
      intro x hx
      have hnm := hnomatch x hx
      simp only [] at hnm
      simp [hnm]
    have hf2 : X.albums.find? (fun x => nocaseEq x.album_name (trimS n)) =
        some ⟨r.album_id, n, a.album_coverPath_low, a.album_coverPath_high,
          a.album_artist, none⟩ := by
      rw [hXalb, List.find?_append, hfindF]
      simp [hself]
    have hstep2 : storeAlbum a X = (r.album_id,
        { X with
            albums := X.albums.filter (fun x => !(x.album_id == r.album_id)) ++
              [⟨r.album_id, n, a.album_coverPath_low, a.album_coverPath_high,
                a.album_artist, none⟩] }) := by
      simp [storeAlbum, h1, hne, hf2, strTruthy, hrid]
    have hfilt : X.albums.filter (fun x => !(x.album_id == r.album_id)) =
        db.albums.filter (fun x => !(x.album_id == r.album_id)) := by
      rw [hXalb, List.filter_append]
      have hFF : (db.albums.filter (fun x => !(x.album_id == r.album_id))).filter
          (fun x => !(x.album_id == r.album_id)) =
          db.albums.filter (fun x => !(x.album_id == r.album_id)) := by
        apply List.filter_eq_self.mpr
        intro x hx
        exact (List.mem_filter.mp hx).2
      rw [hFF]
      simp
    rw [hstep2, hstep1]
    dsimp only
    have halbeq : X.albums.filter (fun x => !(x.album_id == r.album_id)) ++
        [(⟨r.album_id, n, a.album_coverPath_low, a.album_coverPath_high,
          a.album_artist, none⟩ : AlbumRow)] = X.albums := by
      rw [hfilt, ← hXalb]
    rw [halbeq]
  | none =>
    have hkeep : ∀ m : Nat, db.albums.filter (fun x => !(x.album_id == freshId m)) =
        db.albums := by
      intro m
      apply List.filter_eq_self.mpr
      intro x hx
      simp [hfreshfree x hx m]
    have hstep1 : storeAlbum a db = (freshId db.fresh,
        { db with
            albums := db.albums ++
              [⟨freshId db.fresh, n, a.album_coverPath_low, a.album_coverPath_high,
                a.album_artist, none⟩],
            fresh := db.fresh + 1 }) := by
      simp [storeAlbum, h1, hne, hf, strTruthy, hkeep]
    have hXalb : X.albums = db.albums ++
        [⟨freshId db.fresh, n, a.album_coverPath_low, a.album_coverPath_high,
          a.album_artist, none⟩] := by
      rw [hX, hstep1]
    have hf2 : X.albums.find? (fun x => nocaseEq x.album_name (trimS n)) =
        some ⟨freshId db.fresh, n, a.album_coverPath_low, a.album_coverPath_high,
          a.album_artist, none⟩ := by
      rw [hXalb, List.find?_append, hf]
      simp [hself]
    have hstep2 : storeAlbum a X = (freshId db.fresh,
        { X with
            albums := X.albums.filter (fun x => !(x.album_id == freshId db.fresh)) ++
              [⟨freshId db.fresh, n, a.album_coverPath_low, a.album_coverPath_high,
                a.album_artist, none⟩] }) := by
      simp [storeAlbum, h1, hne, hf2, strTruthy, freshId_ne_empty]
    have hfilt : X.albums.filter (fun x => !(x.album_id == freshId db.fresh)) =
        db.albums := by
      rw [hXalb, List.filter_append, hkeep]
      simp
    rw [hstep2, hstep1]
    dsimp only
    have halbeq : X.albums.filter (fun x => !(x.album_id == freshId db.fresh)) ++
        [(⟨freshId db.fresh, n, a.album_coverPath_low, a.album_coverPath_high,
          a.album_artist, none⟩ : AlbumRow)] = X.albums := by
      rw [hfilt, ← hXalb]
    rw [halbeq]

/-- `store` unfolded into its four stages (artist resolution, album
resolution, genre resolution, conditional song/bridge insertion). -/
theorem store_unfold (s : SongDoc) (db : DB) :
    store s db =
      (let p1 := match s.artists with
        | some arr => storeArtists arr db
        | none => ([], db)
       let p2 := match s.album with
        | some al => storeAlbum al p1.2
        | none => ("", p1.2)
       let p3 := storeGenre s.genre p2.2
       let m := marshalSong s
       if (p3.2.allsongs.filter (fun r => r._id == m._id)).length == 0 then
         storeAlbumBridge p2.1 m._id
           (storeGenreBridge p3.1 m._id
             (storeArtistBridge p1.1 m._id
               { p3.2 with allsongs := p3.2.allsongs ++ [m] }))
       else p3.2) := rfl

/-- `storeArtistBridge` changes only the artists bridge. -/
theorem storeArtistBridge_frame (ids : List String) (sid : String) (d : DB) :
    (storeArtistBridge ids sid d).allsongs = d.allsongs ∧
    (storeArtistBridge ids sid d).artists = d.artists ∧
    (storeArtistBridge ids sid d).albums = d.albums ∧
    (storeArtistBridge ids sid d).genre = d.genre :=
  ⟨rfl, rfl, rfl, rfl⟩

/-- `storeGenreBridge` changes only the genre bridge. -/
theorem storeGenreBridge_frame (ids : List String) (sid : String) (d : DB) :
    (storeGenreBridge ids sid d).allsongs = d.allsongs ∧
    (storeGenreBridge ids sid d).artists = d.artists ∧
    (storeGenreBridge ids sid d).albums = d.albums ∧
    (storeGenreBridge ids sid d).genre = d.genre :=
  ⟨rfl, rfl, rfl, rfl⟩

/-- `storeAlbumBridge` changes only the album bridge. -/
theorem storeAlbumBridge_frame (aid : String) (sid : String) (d : DB) :
    (storeAlbumBridge aid sid d).allsongs = d.allsongs ∧
    (storeAlbumBridge aid sid d).artists = d.artists ∧
    (storeAlbumBridge aid sid d).albums = d.albums ∧
    (storeAlbumBridge aid sid d).genre = d.genre := by
  unfold storeAlbumBridge
  split
  · exact ⟨rfl, rfl, rfl, rfl⟩
  · exact ⟨rfl, rfl, rfl, rfl⟩

/-- C3 (amended): a second `store` of the same song document is a no-op —
the state is unchanged and exactly one song row with that identifier
exists — provided basic integrity of the initial state (no empty entity
identifiers, no identifier colliding with a generated one) and, crucially,
that the song's album name (if any) is already whitespace-trimmed with at
most one case-insensitive match in the albums table.  (The counterexample
shows the untrimmed-album-name case genuinely breaks the claimed no-op.) -/
theorem c3_store_idempotent_amended (s : SongDoc) (db : DB)
    (hart : ∀ r ∈ db.artists, r.artist_id ≠ "")
    (hgen : ∀ r ∈ db.genre, r.genre_id ≠ "")
    (halb : ∀ r ∈ db.albums, r.album_id ≠ "")
    (halbfresh : ∀ r ∈ db.albums, ∀ m : Nat, r.album_id ≠ freshId m)
    (hcond : ∀ al, s.album = some al → ∀ n, al.album_name = some n → n ≠ "" →
      trimS n = n ∧ db.albums.countP (fun r => nocaseEq r.album_name (trimS n)) ≤ 1) :
    store s (store s db) = store s db ∧
    (db.allsongs.countP (fun r => r._id == s._id) = 0 →
      (store s db).allsongs.countP (fun r => r._id == s._id) = 1) := by
  set D := store s db with hDdef
  set A : List String × DB :=
    (match s.artists with
      | some arr => storeArtists arr db
      | none => ([], db)) with hA
  set B : String × DB :=
    (match s.album with
      | some al => storeAlbum al A.2
      | none => ("", A.2)) with hB
  set G : List String × DB := storeGenre s.genre B.2 with hG
  have hDif : D = (if ((G.2.allsongs.filter
        (fun r => r._id == (marshalSong s)._id)).length == 0) then
      storeAlbumBridge B.1 (marshalSong s)._id
        (storeGenreBridge G.1 (marshalSong s)._id
          (storeArtistBridge A.1 (marshalSong s)._id
            { G.2 with allsongs := G.2.allsongs ++ [marshalSong s] }))
    else G.2) := by
    rw [hDdef]
    rfl
  have hAframe : A.2.allsongs = db.allsongs ∧ A.2.albums = db.albums ∧
      A.2.genre = db.genre := by
    rw [hA]
    cases s.artists with
    | none => exact ⟨rfl, rfl, rfl⟩
    | some arr =>
      have h := storeArtists_frame arr db
      exact ⟨h.1, h.2.1, h.2.2.1⟩
  have hBframe : B.2.allsongs = A.2.allsongs ∧ B.2.artists = A.2.artists ∧
      B.2.genre = A.2.genre := by
    rw [hB]
    cases s.album with
    | none => exact ⟨rfl, rfl, rfl⟩
    | some al =>
      have h := storeAlbum_frame al A.2
      exact ⟨h.1, h.2.1, h.2.2.1⟩
  have hGframe : G.2.allsongs = B.2.allsongs ∧ G.2.artists = B.2.artists ∧
      G.2.albums = B.2.albums := by
    rw [hG]
    have h := storeGenre_frame s.genre B.2
    exact ⟨h.1, h.2.1, h.2.2.1⟩
  have hDart : D.artists = G.2.artists := by
    rw [hDif]
    by_cases hc : ((G.2.allsongs.filter
        (fun r => r._id == (marshalSong s)._id)).length == 0) = true
    · rw [if_pos hc]
      rw [(storeAlbumBridge_frame _ _ _).2.1, (storeGenreBridge_frame _ _ _).2.1,
          (storeArtistBridge_frame _ _ _).2.1]
    · rw [if_neg hc]
  have hDalb : D.albums = G.2.albums := by
    rw [hDif]
    by_cases hc : ((G.2.allsongs.filter
        (fun r => r._id == (marshalSong s)._id)).length == 0) = true
    · rw [if_pos hc]
      rw [(storeAlbumBridge_frame _ _ _).2.2.1, (storeGenreBridge_frame _ _ _).2.2.1,
          (storeArtistBridge_frame _ _ _).2.2.1]
    · rw [if_neg hc]
  have hDgen : D.genre = G.2.genre := by
    rw [hDif]
    by_cases hc : ((G.2.allsongs.filter
        (fun r => r._id == (marshalSong s)._id)).length == 0) = true
    · rw [if_pos hc]
      rw [(storeAlbumBridge_frame _ _ _).2.2.2, (storeGenreBridge_frame _ _ _).2.2.2,
          (storeArtistBridge_frame _ _ _).2.2.2]
    · rw [if_neg hc]
  have hGsongs : G.2.allsongs = db.allsongs := by
    rw [hGframe.1, hBframe.1, hAframe.1]
  have hi : (match s.artists with
      | some arr => storeArtists arr D
      | none => ([], D)).2 = D := by
    cases harts : s.artists with
    | none => rfl
    | some arr =>
      show (storeArtists arr D).2 = D
      apply storeArtists_noop
      have hDa : D.artists = A.2.artists := by
        rw [hDart, hGframe.2.1, hBframe.2.1]
      rw [hDa]
      have hAeq : A = storeArtists arr db := by rw [hA, harts]
      rw [hAeq]
      exact (storeArtists_establish arr db hart).2
  have hii : (match s.album with
      | some al => storeAlbum al D
      | none => ("", D)).2 = D := by
    cases hsal : s.album with
    | none => rfl
    | some al =>
      show (storeAlbum al D).2 = D
      cases haln : al.album_name with
      | none => simp [storeAlbum, haln]
      | some n =>
        by_cases hne : n = ""
        · simp [storeAlbum, haln, hne]
        · have hAalb : A.2.albums = db.albums := hAframe.2.1
          have hcnd := hcond al hsal n haln hne
          have hX : D.albums = (storeAlbum al A.2).2.albums := by
            rw [hDalb, hGframe.2.2]
            have hBeq : B = storeAlbum al A.2 := by rw [hB, hsal]
            rw [hBeq]
          have hnoop := storeAlbum_second_noop al A.2 D n haln hne hcnd.1
            (by rw [hAalb]; exact halb)
            (by rw [hAalb]; exact hcnd.2)
            (by rw [hAalb]; exact halbfresh)
            hX
          rw [hnoop]
  have hiii : (storeGenre s.genre D).2 = D := by
    cases hsg : s.genre with
    | none => rfl
    | some gs =>
      apply storeGenre_noop
      have hDg : D.genre = (storeGenre (some gs) B.2).2.genre := by
        rw [hDgen]
        have hGeq : G = storeGenre (some gs) B.2 := by rw [hG, hsg]
        rw [hGeq]
      rw [hDg]
      have hBgen : B.2.genre = db.genre := by rw [hBframe.2.2, hAframe.2.2]
      exact (storeGenre_establish gs B.2 (by rw [hBgen]; exact hgen)).2
  have hiv : ((D.allsongs.filter
      (fun r => r._id == (marshalSong s)._id)).length == 0) = false := by
    by_cases hc : ((G.2.allsongs.filter
        (fun r => r._id == (marshalSong s)._id)).length == 0) = true
    · have hDsongs : D.allsongs = G.2.allsongs ++ [marshalSong s] := by
        rw [hDif, if_pos hc]
        rw [(storeAlbumBridge_frame _ _ _).1, (storeGenreBridge_frame _ _ _).1,
            (storeArtistBridge_frame _ _ _).1]
      rw [hDsongs, List.filter_append]
      simp
    · have hDeq : D = G.2 := by rw [hDif, if_neg hc]
      rw [hDeq]
      cases hb : ((G.2.allsongs.filter
          (fun r => r._id == (marshalSong s)._id)).length == 0) with
      | true => exact absurd hb hc
      | false => rfl
  constructor
  · rw [store_unfold s D]
    dsimp only
    rw [hi, hii, hiii, hiv]
    simp
  · intro hzero
    have hfilt0 : (G.2.allsongs.filter
        (fun r => r._id == (marshalSong s)._id)).length = 0 := by
      rw [hGsongs, ← List.countP_eq_length_filter]
      exact hzero
    have hc : ((G.2.allsongs.filter
        (fun r => r._id == (marshalSong s)._id)).length == 0) = true := by
      rw [hfilt0]
      rfl
    have hDsongs : D.allsongs = G.2.allsongs ++ [marshalSong s] := by
      rw [hDif, if_pos hc]
      rw [(storeAlbumBridge_frame _ _ _).1, (storeGenreBridge_frame _ _ _).1,
          (storeArtistBridge_frame _ _ _).1]
    rw [hDsongs, hGsongs, List.countP_append, hzero]
    simp [List.countP_cons]
    rfl

/-- C3 counterexample: the claim "the second `store` call is a no-op and
leaves the entire database state unchanged" fails.  For a song whose album
name `" A "` carries surrounding whitespace, the album lookup probes the
*trimmed* name but the row stores the untrimmed one, so the second call
misses it and inserts a second album row: two album rows after the double
store, and the states differ. -/
theorem c3_counterexample_untrimmed_album :
    (store ⟨"s1", "T", none, none, none, some ⟨some " A ", none, none, none⟩, none, none⟩
        (store ⟨"s1", "T", none, none, none, some ⟨some " A ", none, none, none⟩, none, none⟩
          DB.empty)).albums.length = 2 ∧
    (store ⟨"s1", "T", none, none, none, some ⟨some " A ", none, none, none⟩, none, none⟩
        DB.empty).albums.length = 1 ∧
    store ⟨"s1", "T", none, none, none, some ⟨some " A ", none, none, none⟩, none, none⟩
        (store ⟨"s1", "T", none, none, none, some ⟨some " A ", none, none, none⟩, none, none⟩
          DB.empty) ≠
      store ⟨"s1", "T", none, none, none, some ⟨some " A ", none, none, none⟩, none, none⟩
        DB.empty := by
  exact ⟨by decide, by decide, by decide⟩

/-- C3 witness: the amended idempotence theorem applied to a concrete song
(artist `"Art"`, trimmed album name `"A"`, genre `"g"`) stored twice into
the empty database. -/
theorem c3_store_idempotent_witness :
    store ⟨"s1", "T", none, none, none, some ⟨some "A", some "cl", none, none⟩,
        some ["Art"], some ["g"]⟩
      (store ⟨"s1", "T", none, none, none, some ⟨some "A", some "cl", none, none⟩,
        some ["Art"], some ["g"]⟩ DB.empty) =
    store ⟨"s1", "T", none, none, none, some ⟨some "A", some "cl", none, none⟩,
        some ["Art"], some ["g"]⟩ DB.empty ∧
    (store ⟨"s1", "T", none, none, none, some ⟨some "A", some "cl", none, none⟩,
        some ["Art"], some ["g"]⟩ DB.empty).allsongs.countP
      (fun r => r._id == "s1") = 1 := by
  have h := c3_store_idempotent_amended
    ⟨"s1", "T", none, none, none, some ⟨some "A", some "cl", none, none⟩,
      some ["Art"], some ["g"]⟩ DB.empty
    (fun r hr => absurd hr (List.not_mem_nil r))
    (fun r hr => absurd hr (List.not_mem_nil r))
    (fun r hr => absurd hr (List.not_mem_nil r))
    (fun r hr => absurd hr (List.not_mem_nil r))
    (by
      intro al hal n hn hne
      cases hal
      cases hn
      exact ⟨by decide, by decide⟩)
  exact ⟨h.1, h.2 (by decide)⟩

/-! ## C1: cascade correctness for a shared artist -/

/-- C1: in a database holding exactly two songs that share one artist
(one bridge row each), removing the first song leaves the artist row —
including its `artist_coverPath` — untouched (its reference count is 2),
and then removing the second song deletes the artist row and collects the
artist's cover path in the cleanup set.  The identifier hypotheses say the
two song ids differ and the artist id is a `LIKE`-wildcard-free non-empty
string, as generated UUIDs are. -/
theorem c1_cascade_two_songs_one_artist
    (s1id s2id arid arname p t1 t2 : String) (k : Nat)
    (hneq : s1id ≠ s2id)
    (hw1 : '%' ∉ arid.data) (hw2 : '_' ∉ arid.data)
    (hp : p ≠ "") :
    (removeSongDB
      ⟨[⟨s1id, t1, none, none, none⟩, ⟨s2id, t2, none, none, none⟩],
        [⟨arid, arname, some p, none⟩], [], [], [],
        [⟨s1id, arid⟩, ⟨s2id, arid⟩], [], [], [], k⟩ s1id).1.artists =
      [⟨arid, arname, some p, none⟩] ∧
    (removeSongDB (removeSongDB
      ⟨[⟨s1id, t1, none, none, none⟩, ⟨s2id, t2, none, none, none⟩],
        [⟨arid, arname, some p, none⟩], [], [], [],
        [⟨s1id, arid⟩, ⟨s2id, arid⟩], [], [], [], k⟩ s1id).1 s2id).1.artists = [] ∧
    p ∈ (removeSongDB (removeSongDB
      ⟨[⟨s1id, t1, none, none, none⟩, ⟨s2id, t2, none, none, none⟩],
        [⟨arid, arname, some p, none⟩], [], [], [],
        [⟨s1id, arid⟩, ⟨s2id, arid⟩], [], [], [], k⟩ s1id).1 s2id).2 := by
  have h21 : (s2id == s1id) = false := beq_eq_false_iff_ne.mpr (Ne.symm hneq)
  have hlike : likeMatch arid.data arid.data = true := likeMatch_self arid.data hw1 hw2
  have hstep1 : removeSongDB
      ⟨[⟨s1id, t1, none, none, none⟩, ⟨s2id, t2, none, none, none⟩],
        [⟨arid, arname, some p, none⟩], [], [], [],
        [⟨s1id, arid⟩, ⟨s2id, arid⟩], [], [], [], k⟩ s1id =
      (⟨[⟨s2id, t2, none, none, none⟩],
        [⟨arid, arname, some p, none⟩], [], [], [],
        [⟨s2id, arid⟩], [], [], [], k⟩, []) := by
    simp [removeSongDB, getCountBySongAlbum, getCountBySongArtist,
      removeArtistStep, removeAlbumStep, h21, pushTruthy]
  rw [hstep1]
  have hstep2 : removeSongDB
      ⟨[⟨s2id, t2, none, none, none⟩],
        [⟨arid, arname, some p, none⟩], [], [], [],
        [⟨s2id, arid⟩], [], [], [], k⟩ s2id =
      (⟨[], [], [], [], [], [], [], [], [], k⟩, [p]) := by
    simp [removeSongDB, getCountBySongAlbum, getCountBySongArtist,
      removeArtistStep, removeAlbumStep, pushTruthy, getEntityByOptions,
      entityQueryParts, getTableByProperty, getTitleColByProperty,
      rowMatchesPreds, sortByLe, insertLe, EntityRows.artistRows,
      ArtistRow.col, hlike, hp]
  rw [hstep2]
  exact ⟨rfl, rfl, List.mem_singleton.mpr rfl⟩

/-- C1 witness: the cascade theorem applied at concrete identifiers. -/
theorem c1_cascade_witness :
    (removeSongDB
      ⟨[⟨"s1", "t1", none, none, none⟩, ⟨"s2", "t2", none, none, none⟩],
        [⟨"ar1", "Artist", some "cover", none⟩], [], [], [],
        [⟨"s1", "ar1"⟩, ⟨"s2", "ar1"⟩], [], [], [], 0⟩ "s1").1.artists =
      [⟨"ar1", "Artist", some "cover", none⟩] ∧
    (removeSongDB (removeSongDB
      ⟨[⟨"s1", "t1", none, none, none⟩, ⟨"s2", "t2", none, none, none⟩],
        [⟨"ar1", "Artist", some "cover", none⟩], [], [], [],
        [⟨"s1", "ar1"⟩, ⟨"s2", "ar1"⟩], [], [], [], 0⟩ "s1").1 "s2").1.artists = [] ∧
    "cover" ∈ (removeSongDB (removeSongDB
      ⟨[⟨"s1", "t1", none, none, none⟩, ⟨"s2", "t2", none, none, none⟩],
        [⟨"ar1", "Artist", some "cover", none⟩], [], [], [],
        [⟨"s1", "ar1"⟩, ⟨"s2", "ar1"⟩], [], [], [], 0⟩ "s1").1 "s2").2 :=
  c1_cascade_two_songs_one_artist "s1" "s2" "ar1" "Artist" "cover" "t1" "t2" 0
    (by decide) (by decide) (by decide) (by decide)


end Moosync
